import Mathlib

/-!
Verification development for the `ansible-modules-asg-deployments` repository.

The repository contains four Ansible modules that orchestrate blue/green
cutovers of AWS auto scaling groups:

* `library/ec2_asg_cutover_elb.py` — swap classic load balancers between a
  live ("current") group and a candidate ("new") group;
* `library/ec2_asg_cutover_target_groups.py` — the same protocol for ALB/NLB
  target groups;
* `library/ec2_asg_elbs.py` and `library/ec2_asg_target_groups.py` — set the
  endpoints of a single group.

Each module is embedded below as a pure Lean function from its parameters and
an abstract AWS environment to a run record: the ordered list of mutation
calls it issued (the trace), the list of control-flow phases it entered, and
its terminal outcome.  The AWS control plane (group lookup, endpoint health)
is a read-only oracle supplied in the environment; the wall clock observed by
each polling loop is modelled by a `GateClock` (see below).  Remote mutation
calls are recorded in the trace and do not feed back into the oracle, which
matches the source: the polling predicates read only `describe_*` data and the
snapshots taken before mutation.
-/

/-- One member of an auto scaling group, as returned by
`describe_auto_scaling_groups` (fields `InstanceId`, `LifecycleState`,
`HealthStatus`). -/
structure AsgInstance where
  instanceId : String
  lifecycleState : String
  healthStatus : String
deriving DecidableEq

/-- An auto scaling group record, restricted to the fields the modules read. -/
structure AsgGroup where
  autoScalingGroupName : String
  loadBalancerNames : List String
  targetGroupARNs : List String
  instances : List AsgInstance
  healthCheckType : String
  healthCheckGracePeriod : Nat
deriving DecidableEq

/-- A remote mutation call issued by a module, in issue order. -/
inductive Event where
  | detachLoadBalancers (group : String) (names : List String)
  | attachLoadBalancers (group : String) (names : List String)
  | detachTargetGroups (group : String) (arns : List String)
  | attachTargetGroups (group : String) (arns : List String)
  | updateAutoScalingGroup (group : String) (healthCheckType : String) (grace : Nat)
deriving DecidableEq

/-- Control-flow phases of the cutover protocol, used to label which blocks of
`main` a run executed. -/
inductive Phase where
  | validate
  | prepareNew
  | gateNewHealth
  | rollback
  | cutoverOld
  | gateDereg
  | gateStandby
  | done
deriving DecidableEq

/-- The per-group slice of the result dict built by a module on success. -/
structure GroupResult where
  name : String
  endpoints : List String
  instance_ids : List String
  instance_status : List (String × String × String)
deriving DecidableEq

/-- Terminal outcome of a module run: `fail_json`, an unhandled Python
exception, or `exit_json` with the result payload. -/
inductive Outcome where
  | failed (msg : String)
  | crashed (msg : String)
  | ok (results : List GroupResult)
deriving DecidableEq

/-- Observable record of one module run. -/
structure RunResult where
  trace : List Event
  phases : List Phase
  outcome : Outcome
deriving DecidableEq

/-- Lookup in a Python dict built with `dict(pairs)`: the LAST binding of a
key wins. -/
def pyDictLookup (pairs : List (String × α)) (key : String) : Option α :=
  pairs.reverse.lookup key

/-- The entries of a Python dict built with `dict(pairs)`: one entry per key,
the last value bound to each key wins.  The iteration order produced here may
differ from CPython, but every use below is an order-insensitive `all`/`any`. -/
def pyDictEntries (pairs : List (String × α)) : List (String × α) :=
  pairs.foldl (fun acc kv => (acc.filter fun e => e.1 != kv.1) ++ [kv]) []

/-- Python `x or y` where `x` is an optional-list module parameter: `None` and
the empty list are falsy, so both fall back to `y`. -/
def pyListOr (x : Option (List String)) (y : List String) : List String :=
  match x with
  | none => y
  | some l => if l.isEmpty then y else l

/-- A Python value as stored in `module.params`. -/
inductive PyVal where
  | pyNone
  | pyBool (b : Bool)
  | pyInt (n : Nat)
  | pyStr (s : String)
  | pyList (l : List String)
deriving DecidableEq

/-- Python truthiness, as used by `if module.params.get(...):`. -/
def pyTruthy : PyVal → Bool
  | .pyNone => false
  | .pyBool b => b
  | .pyInt n => n != 0
  | .pyStr s => !s.isEmpty
  | .pyList l => !l.isEmpty

/-- Model of the wall clock seen by one polling loop of the form

```
flag = False
deadline = time.time() + wait_timeout
while not flag and deadline > time.time():
    flag = <predicate at this iteration>
    if not flag: time.sleep(5)
expired = deadline <= time.time()
```

`budget` is the number of loop-guard clock reads that still precede the
deadline (time is monotone, so those reads form a prefix of the iterations).
`postExpired` is the value of the final `deadline <= time.time()` re-read in
the case where the loop exited because the predicate held; when the loop
exits because the guard read passed the deadline, that later re-read is
necessarily also past the deadline. -/
structure GateClock where
  budget : Nat
  postExpired : Bool
deriving DecidableEq

/-- Value of the loop flag after the loop: the predicate held at some
iteration whose guard read preceded the deadline. -/
def gateHealthy (pred : Nat → Bool) (budget : Nat) : Bool :=
  (List.range budget).any pred

/-- Value of the post-loop `deadline <= time.time()` test. -/
def gateExpired (pred : Nat → Bool) (c : GateClock) : Bool :=
  if gateHealthy pred c.budget then c.postExpired else true

/-- Baseline snapshot of a group: the `instance_status` dict mapping each
instance id to its (LifecycleState, HealthStatus) pair, captured before any
mutation. -/
def instanceStatusOf (g : AsgGroup) : List (String × String × String) :=
  pyDictEntries (g.instances.map fun i => (i.instanceId, i.lifecycleState, i.healthStatus))

/-- The pre-cutover check of `ec2_asg_cutover_elb` / `..._target_groups` /
the single-group modules: every member of the snapshot is lifecycle
`InService` and self-reported `Healthy`. -/
def groupAllInServiceHealthy (g : AsgGroup) : Bool :=
  (instanceStatusOf g).all fun e => e.2.1 == "InService" && e.2.2 == "Healthy"

/-- One polling iteration of the ELB health gates (phase 3 against the
destination ELBs, phase 6 against the standby ELBs): for every given load
balancer, every snapshot member that was `InService` at baseline (and
`Healthy`, unless the group does not use ELB health checks) must appear in
that load balancer instance-state dict with state `InService`. -/
def elbHealthPred (healthCheckType : String) (snapshot : List (String × String × String))
    (load_balancers : List String) (instanceHealth : String → List (String × String)) : Bool :=
  load_balancers.all fun lb =>
    snapshot.all fun e =>
      if e.2.1 == "InService" && (e.2.2 == "Healthy" || healthCheckType != "ELB") then
        match pyDictLookup (instanceHealth lb) e.1 with
        | some st => st == "InService"
        | none => false
      else true

/-- One polling iteration of the ELB deregistration gate (phase 5): none of
the original live-fleet members may appear among the registered instances of
any destination load balancer. -/
def elbDeregPred (original_instances : List String) (load_balancers : List String)
    (instanceHealth : String → List (String × String)) : Bool :=
  load_balancers.all fun lb =>
    (instanceHealth lb).all fun e => !original_instances.contains e.1

/-- Parameters of `ec2_asg_cutover_elb` (the AWS connection arguments are out
of scope; `current_group_name` and `new_group_name` are required, hence
never `None`). -/
structure CutoverElbParams where
  current_group_name : String
  new_group_name : String
  standby_load_balancers : Option (List String)
  verify_standby_instances : Bool
  rollback_on_failure : Bool
  wait_timeout : Nat

/-- The AWS read-only oracle seen by one run of `ec2_asg_cutover_elb`:
group lookup, per-poll-iteration `describe_instance_health` data for each of
the three polling loops, and each loop's clock. -/
structure CutoverElbEnv where
  describeAutoScalingGroups : String → List AsgGroup
  instanceHealth3 : Nat → String → List (String × String)
  gate3 : GateClock
  instanceHealth5 : Nat → String → List (String × String)
  gate5 : GateClock
  instanceHealth6 : Nat → String → List (String × String)
  gate6 : GateClock

/-- The phase-3 polling predicate of `ec2_asg_cutover_elb`, at poll
iteration `k`. -/
def cutoverElbGate3Pred (env : CutoverElbEnv) (current_group new_group : AsgGroup)
    (k : Nat) : Bool :=
  elbHealthPred new_group.healthCheckType (instanceStatusOf new_group)
    current_group.loadBalancerNames (env.instanceHealth3 k)

/-- The phase-5 deregistration polling predicate of `ec2_asg_cutover_elb`. -/
def cutoverElbGate5Pred (env : CutoverElbEnv) (current_group : AsgGroup) (k : Nat) : Bool :=
  elbDeregPred (current_group.instances.map (·.instanceId))
    current_group.loadBalancerNames (env.instanceHealth5 k)

/-- The optional phase-6 standby polling predicate of `ec2_asg_cutover_elb`. -/
def cutoverElbGate6Pred (env : CutoverElbEnv) (current_group : AsgGroup)
    (standby_load_balancers : List String) (k : Nat) : Bool :=
  elbHealthPred current_group.healthCheckType (instanceStatusOf current_group)
    standby_load_balancers (env.instanceHealth6 k)

/-- Body of `ec2_asg_cutover_elb.main` after validation succeeded:
lines 178-297 of the source. -/
def cutoverElbAfterValidation (p : CutoverElbParams) (env : CutoverElbEnv)
    (current_group new_group : AsgGroup) : RunResult :=
  let target_load_balancers := current_group.loadBalancerNames
  let source_load_balancers := new_group.loadBalancerNames
  let standby_load_balancers := pyListOr p.standby_load_balancers source_load_balancers
  let original_instances := current_group.instances.map (·.instanceId)
  let new_instances := new_group.instances.map (·.instanceId)
  let trace1 : List Event :=
    [.detachLoadBalancers new_group.autoScalingGroupName source_load_balancers,
     .attachLoadBalancers new_group.autoScalingGroupName target_load_balancers] ++
    (if new_group.healthCheckType == "ELB" then
      [.updateAutoScalingGroup new_group.autoScalingGroupName new_group.healthCheckType
        new_group.healthCheckGracePeriod]
    else [])
  if gateExpired (cutoverElbGate3Pred env current_group new_group) env.gate3 then
    if p.rollback_on_failure then
      ⟨trace1 ++ [.detachLoadBalancers new_group.autoScalingGroupName target_load_balancers,
                  .attachLoadBalancers new_group.autoScalingGroupName source_load_balancers],
       [.validate, .prepareNew, .gateNewHealth, .rollback],
       .failed "Waited too long for target ELB to report instances as healthy"⟩
    else
      ⟨trace1, [.validate, .prepareNew, .gateNewHealth],
       .failed "Waited too long for target ELB to report instances as healthy"⟩
  else
    let trace2 := trace1 ++
      [.detachLoadBalancers current_group.autoScalingGroupName target_load_balancers,
       .attachLoadBalancers current_group.autoScalingGroupName standby_load_balancers] ++
      (if current_group.healthCheckType == "ELB" then
        [.updateAutoScalingGroup current_group.autoScalingGroupName current_group.healthCheckType
          current_group.healthCheckGracePeriod]
      else [])
    if gateExpired (cutoverElbGate5Pred env current_group) env.gate5 then
      ⟨trace2, [.validate, .prepareNew, .gateNewHealth, .cutoverOld, .gateDereg],
       .failed "Waited too long for target ELB to deregister old instances"⟩
    else if p.verify_standby_instances then
      if gateExpired (cutoverElbGate6Pred env current_group standby_load_balancers) env.gate6 then
        ⟨trace2, [.validate, .prepareNew, .gateNewHealth, .cutoverOld, .gateDereg, .gateStandby],
         .failed "Waited too long for standby ELB to report instances as healthy"⟩
      else
        ⟨trace2,
         [.validate, .prepareNew, .gateNewHealth, .cutoverOld, .gateDereg, .gateStandby, .done],
         .ok [⟨new_group.autoScalingGroupName, target_load_balancers, new_instances,
               instanceStatusOf new_group⟩,
              ⟨current_group.autoScalingGroupName, standby_load_balancers, original_instances,
               instanceStatusOf current_group⟩]⟩
    else
      ⟨trace2, [.validate, .prepareNew, .gateNewHealth, .cutoverOld, .gateDereg, .done],
       .ok [⟨new_group.autoScalingGroupName, target_load_balancers, new_instances,
             instanceStatusOf new_group⟩,
            ⟨current_group.autoScalingGroupName, standby_load_balancers, original_instances,
             instanceStatusOf current_group⟩]⟩

/-- Validation steps of `ec2_asg_cutover_elb.main` once both groups resolved:
lines 159-176 of the source (empty endpoint sets, then the baseline member
health precondition). -/
def cutoverElbResolved (p : CutoverElbParams) (env : CutoverElbEnv)
    (current_group new_group : AsgGroup) : RunResult :=
  if current_group.loadBalancerNames.length == 0 then
    ⟨[], [.validate],
     .failed "No load balancers are attached to the current auto scaling group"⟩
  else if new_group.loadBalancerNames.length == 0 then
    ⟨[], [.validate],
     .failed "No load balancers are attached to the new auto scaling group"⟩
  else if !groupAllInServiceHealthy new_group then
    ⟨[], [.validate], .failed "Instances in new_group must be healthy and in service"⟩
  else
    cutoverElbAfterValidation p env current_group new_group

/-- `ec2_asg_cutover_elb.main`, lines 137-297 of the source. -/
def cutoverElbMain (p : CutoverElbParams) (env : CutoverElbEnv) : RunResult :=
  if p.current_group_name == p.new_group_name then
    ⟨[], [.validate], .failed "current_group_name and new_group_name cannot be the same!"⟩
  else
    match env.describeAutoScalingGroups p.current_group_name with
    | [] => ⟨[], [.validate], .failed "The current auto scaling group was not found"⟩
    | [current_group] =>
      match env.describeAutoScalingGroups p.new_group_name with
      | [] => ⟨[], [.validate], .failed "The new auto scaling group was not found"⟩
      | [new_group] => cutoverElbResolved p env current_group new_group
      | _ =>
        ⟨[], [.validate],
         .failed "More than one auto scaling group matches the supplied new_group_name"⟩
    | _ =>
      ⟨[], [.validate],
       .failed "More than one auto scaling group matches the supplied current_group_name"⟩

/-- The load balancers attached to group `g` after replaying a trace from the
initial attachment list `attached`: `detach` removes the named endpoints,
`attach` adds the ones not already present (AWS attach is idempotent per
endpoint), other calls leave attachments unchanged. -/
def lbAttachedAfter (g : String) (attached : List String) : List Event → List String
  | [] => attached
  | .detachLoadBalancers g9 names :: rest =>
    lbAttachedAfter g
      (if g9 == g then attached.filter (fun l => !names.contains l) else attached) rest
  | .attachLoadBalancers g9 names :: rest =>
    lbAttachedAfter g
      (if g9 == g then attached ++ names.filter (fun l => !attached.contains l) else attached) rest
  | _ :: rest => lbAttachedAfter g attached rest

/-- The target groups attached to group `g` after replaying a trace. -/
def tgAttachedAfter (g : String) (attached : List String) : List Event → List String
  | [] => attached
  | .detachTargetGroups g9 arns :: rest =>
    tgAttachedAfter g
      (if g9 == g then attached.filter (fun l => !arns.contains l) else attached) rest
  | .attachTargetGroups g9 arns :: rest =>
    tgAttachedAfter g
      (if g9 == g then attached ++ arns.filter (fun l => !attached.contains l) else attached) rest
  | _ :: rest => tgAttachedAfter g attached rest

/-- One `TargetHealthDescriptions[0]['TargetHealth']` record returned by
`describe_target_health`.  The `State` key is always present in such a
record; the `Reason` key is optional (AWS omits it for healthy targets), and
the deregistration gate tests for its presence. -/
structure TargetHealth where
  state : String
  reason : Option String
deriving DecidableEq

/-- One polling iteration of the target-group health gates (phase 3 against
the destination target groups, phase 6 against the standby target groups):
for every snapshot member that was `InService` at baseline (and `Healthy`,
unless the group does not use ELB health checks), every given target group
must report a health record for it with state `healthy`. -/
def tgHealthPred (healthCheckType : String) (snapshot : List (String × String × String))
    (target_groups : List String)
    (targetHealth : String → String → List TargetHealth) : Bool :=
  snapshot.all fun e =>
    if e.2.1 == "InService" && (e.2.2 == "Healthy" || healthCheckType != "ELB") then
      target_groups.all fun tg =>
        match targetHealth tg e.1 with
        | [] => false
        | th :: _ => th.state == "healthy"
    else true

/-- One polling iteration of the target-group deregistration gate (phase 5):
every original live-fleet member must either have no health record on each
destination target group, or a record whose state is `unused` with reason
`Target.NotRegistered`; a record missing the `Reason` key counts as still
registered. -/
def tgDeregPred (original_instances : List String) (target_groups : List String)
    (targetHealth : String → String → List TargetHealth) : Bool :=
  original_instances.all fun iid =>
    target_groups.all fun tg =>
      match targetHealth tg iid with
      | [] => true
      | th :: _ =>
        match th.reason with
        | some r => th.state == "unused" && r == "Target.NotRegistered"
        | none => false

/-- Parameters of `ec2_asg_cutover_target_groups`. -/
structure CutoverTgParams where
  current_group_name : String
  new_group_name : String
  standby_target_group_arns : Option (List String)
  verify_standby_instances : Bool
  rollback_on_failure : Bool
  wait_timeout : Nat

/-- The AWS read-only oracle seen by one run of
`ec2_asg_cutover_target_groups`. -/
structure CutoverTgEnv where
  describeAutoScalingGroups : String → List AsgGroup
  targetHealth3 : Nat → String → String → List TargetHealth
  gate3 : GateClock
  targetHealth5 : Nat → String → String → List TargetHealth
  gate5 : GateClock
  targetHealth6 : Nat → String → String → List TargetHealth
  gate6 : GateClock

/-- The phase-3 polling predicate of `ec2_asg_cutover_target_groups`. -/
def cutoverTgGate3Pred (env : CutoverTgEnv) (current_group new_group : AsgGroup)
    (k : Nat) : Bool :=
  tgHealthPred new_group.healthCheckType (instanceStatusOf new_group)
    current_group.targetGroupARNs (env.targetHealth3 k)

/-- The phase-5 deregistration polling predicate of
`ec2_asg_cutover_target_groups`. -/
def cutoverTgGate5Pred (env : CutoverTgEnv) (current_group : AsgGroup) (k : Nat) : Bool :=
  tgDeregPred (current_group.instances.map (·.instanceId))
    current_group.targetGroupARNs (env.targetHealth5 k)

/-- The optional phase-6 standby polling predicate of
`ec2_asg_cutover_target_groups`. -/
def cutoverTgGate6Pred (env : CutoverTgEnv) (current_group : AsgGroup)
    (standby_target_groups : List String) (k : Nat) : Bool :=
  tgHealthPred current_group.healthCheckType (instanceStatusOf current_group)
    standby_target_groups (env.targetHealth6 k)

/-- Body of `ec2_asg_cutover_target_groups.main` after validation succeeded:
lines 170-307 of the source. -/
def cutoverTgAfterValidation (p : CutoverTgParams) (env : CutoverTgEnv)
    (current_group new_group : AsgGroup) : RunResult :=
  let dest_target_groups := current_group.targetGroupARNs
  let source_target_groups := new_group.targetGroupARNs
  let standby_target_groups := pyListOr p.standby_target_group_arns source_target_groups
  let original_instances := current_group.instances.map (·.instanceId)
  let new_instances := new_group.instances.map (·.instanceId)
  let trace1 : List Event :=
    [.detachTargetGroups new_group.autoScalingGroupName source_target_groups,
     .attachTargetGroups new_group.autoScalingGroupName dest_target_groups] ++
    (if new_group.healthCheckType == "ELB" then
      [.updateAutoScalingGroup new_group.autoScalingGroupName new_group.healthCheckType
        new_group.healthCheckGracePeriod]
    else [])
  if gateExpired (cutoverTgGate3Pred env current_group new_group) env.gate3 then
    if p.rollback_on_failure then
      ⟨trace1 ++ [.detachTargetGroups new_group.autoScalingGroupName dest_target_groups,
                  .attachTargetGroups new_group.autoScalingGroupName source_target_groups],
       [.validate, .prepareNew, .gateNewHealth, .rollback],
       .failed "Waited too long for destination target group to report instances as healthy. Deployment has been rolled back."⟩
    else
      ⟨trace1, [.validate, .prepareNew, .gateNewHealth],
       .failed "Waited too long for destination target group to report instances as healthy. No rollback action taken."⟩
  else
    let trace2 := trace1 ++
      [.detachTargetGroups current_group.autoScalingGroupName dest_target_groups,
       .attachTargetGroups current_group.autoScalingGroupName standby_target_groups] ++
      (if current_group.healthCheckType == "ELB" then
        [.updateAutoScalingGroup current_group.autoScalingGroupName current_group.healthCheckType
          current_group.healthCheckGracePeriod]
      else [])
    if gateExpired (cutoverTgGate5Pred env current_group) env.gate5 then
      if p.rollback_on_failure then
        ⟨trace2 ++
          [.detachTargetGroups current_group.autoScalingGroupName standby_target_groups,
           .attachTargetGroups current_group.autoScalingGroupName dest_target_groups,
           .detachTargetGroups new_group.autoScalingGroupName dest_target_groups,
           .attachTargetGroups new_group.autoScalingGroupName source_target_groups],
         [.validate, .prepareNew, .gateNewHealth, .cutoverOld, .gateDereg, .rollback],
         .failed "Waited too long for destination target group to deregister old instances. Deployment has been rolled back."⟩
      else
        ⟨trace2, [.validate, .prepareNew, .gateNewHealth, .cutoverOld, .gateDereg],
         .failed "Waited too long for destination target group to deregister old instances. No rollback action taken."⟩
    else if p.verify_standby_instances then
      if gateExpired (cutoverTgGate6Pred env current_group standby_target_groups) env.gate6 then
        ⟨trace2, [.validate, .prepareNew, .gateNewHealth, .cutoverOld, .gateDereg, .gateStandby],
         .failed "Waited too long for standby target group to report instances as healthy"⟩
      else
        ⟨trace2,
         [.validate, .prepareNew, .gateNewHealth, .cutoverOld, .gateDereg, .gateStandby, .done],
         .ok [⟨new_group.autoScalingGroupName, dest_target_groups, new_instances,
               instanceStatusOf new_group⟩,
              ⟨current_group.autoScalingGroupName, standby_target_groups, original_instances,
               instanceStatusOf current_group⟩]⟩
    else
      ⟨trace2, [.validate, .prepareNew, .gateNewHealth, .cutoverOld, .gateDereg, .done],
       .ok [⟨new_group.autoScalingGroupName, dest_target_groups, new_instances,
             instanceStatusOf new_group⟩,
            ⟨current_group.autoScalingGroupName, standby_target_groups, original_instances,
             instanceStatusOf current_group⟩]⟩

/-- Validation steps of `ec2_asg_cutover_target_groups.main` once both groups
resolved: lines 151-168 of the source. -/
def cutoverTgResolved (p : CutoverTgParams) (env : CutoverTgEnv)
    (current_group new_group : AsgGroup) : RunResult :=
  if current_group.targetGroupARNs.length == 0 then
    ⟨[], [.validate],
     .failed "No target groups are attached to the current auto scaling group"⟩
  else if new_group.targetGroupARNs.length == 0 then
    ⟨[], [.validate],
     .failed "No target groups are attached to the new auto scaling group"⟩
  else if !groupAllInServiceHealthy new_group then
    ⟨[], [.validate], .failed "Instances in new_group must be healthy and in service"⟩
  else
    cutoverTgAfterValidation p env current_group new_group

/-- `ec2_asg_cutover_target_groups.main`, lines 129-307 of the source. -/
def cutoverTgMain (p : CutoverTgParams) (env : CutoverTgEnv) : RunResult :=
  if p.current_group_name == p.new_group_name then
    ⟨[], [.validate], .failed "current_group_name and new_group_name cannot be the same!"⟩
  else
    match env.describeAutoScalingGroups p.current_group_name with
    | [] => ⟨[], [.validate], .failed "The current auto scaling group was not found"⟩
    | [current_group] =>
      match env.describeAutoScalingGroups p.new_group_name with
      | [] => ⟨[], [.validate], .failed "The new auto scaling group was not found"⟩
      | [new_group] => cutoverTgResolved p env current_group new_group
      | _ =>
        ⟨[], [.validate],
         .failed "More than one auto scaling group matches the supplied new_group_name"⟩
    | _ =>
      ⟨[], [.validate],
       .failed "More than one auto scaling group matches the supplied current_group_name"⟩

/-- The in-scope test of the single-group modules, lines 137 / 138:

```
status[0] == 'InService' and (status[1] == 'Healthy' or new_group['HealthCheckType'] != 'ELB')
```

`new_group` is an undefined name in `ec2_asg_elbs.py` and
`ec2_asg_target_groups.py` (only the cutover modules define it), so the
second disjunct raises `NameError` whenever Python evaluates it; the
short-circuit `or` only evaluates it when the baseline health is not
`Healthy`. -/
def inScopeNewGroupRef (lifecycle health : String) : Except String Bool :=
  if lifecycle == "InService" then
    if health == "Healthy" then .ok true
    else .error "NameError: global name new_group is not defined"
  else .ok false

/-- One polling iteration of the `ec2_asg_elbs` health gate, lines 124-144:
may raise (left value) when the in-scope test evaluates the undefined
`new_group` reference. -/
def asgElbsHealthPred (snapshot : List (String × String × String))
    (load_balancers : List String)
    (instanceHealth : String → List (String × String)) : Except String Bool :=
  load_balancers.foldlM
    (fun healthy lb =>
      snapshot.foldlM
        (fun healthy2 e => do
          let scope ← inScopeNewGroupRef e.2.1 e.2.2
          if scope then
            match pyDictLookup (instanceHealth lb) e.1 with
            | some st => pure (healthy2 && (st == "InService"))
            | none => pure false
          else pure healthy2)
        healthy)
    true

/-- One polling iteration of the `ec2_asg_target_groups` health gate,
lines 130-149. -/
def asgTgsHealthPred (snapshot : List (String × String × String))
    (target_groups : List String)
    (targetHealth : String → String → List TargetHealth) : Except String Bool :=
  snapshot.foldlM
    (fun healthy e => do
      let scope ← inScopeNewGroupRef e.2.1 e.2.2
      if scope then
        target_groups.foldlM
          (fun healthy2 tg =>
            match targetHealth tg e.1 with
            | [] => pure false
            | th :: _ => pure (healthy2 && (th.state == "healthy")))
          healthy
      else pure healthy)
    true

/-- The polling loop of the single-group modules, with a predicate that may
raise: the first raising iteration aborts the module with a traceback. -/
def gateHealthyExAux (pred : Nat → Except String Bool) : Nat → Nat → Except String Bool
  | 0, _ => .ok false
  | b + 1, k =>
    match pred k with
    | .error e => .error e
    | .ok true => .ok true
    | .ok false => gateHealthyExAux pred b (k + 1)

/-- Value of the loop flag after the single-group polling loop. -/
def gateHealthyEx (pred : Nat → Except String Bool) (budget : Nat) : Except String Bool :=
  gateHealthyExAux pred budget 0

/-- Value of the post-loop `wait_timeout <= time.time()` test for the
single-group polling loop. -/
def gateExpiredEx (pred : Nat → Except String Bool) (c : GateClock) : Except String Bool :=
  match gateHealthyEx pred c.budget with
  | .error e => .error e
  | .ok true => .ok c.postExpired
  | .ok false => .ok true

/-- Parameters of `ec2_asg_elbs`: its `argument_spec` declares exactly
`name`, `load_balancers` and `wait_timeout` (plus the AWS connection
arguments from `ec2_argument_spec`, none of which is named
`rollback_on_failure`). -/
structure AsgElbsParams where
  name : String
  load_balancers : List String
  wait_timeout : Nat

/-- `module.params.get(key)` for `ec2_asg_elbs`: AnsibleModule populates
`params` only from the declared argument_spec, so `.get` of any undeclared
key — in particular `rollback_on_failure` — returns `None`. -/
def asgElbsParamsGet (p : AsgElbsParams) (key : String) : PyVal :=
  if key == "name" then .pyStr p.name
  else if key == "load_balancers" then .pyList p.load_balancers
  else if key == "wait_timeout" then .pyInt p.wait_timeout
  else .pyNone

/-- The AWS read-only oracle seen by one run of `ec2_asg_elbs`. -/
structure AsgElbsEnv where
  describeAutoScalingGroups : String → List AsgGroup
  instanceHealth : Nat → String → List (String × String)
  gate : GateClock

/-- The polling predicate of `ec2_asg_elbs`, at poll iteration `k`. -/
def asgElbsGatePred (p : AsgElbsParams) (env : AsgElbsEnv) (group : AsgGroup)
    (k : Nat) : Except String Bool :=
  asgElbsHealthPred (instanceStatusOf group) p.load_balancers (env.instanceHealth k)

/-- `ec2_asg_elbs.main`, lines 95-165 of the source. -/
def asgElbsMain (p : AsgElbsParams) (env : AsgElbsEnv) : RunResult :=
  match env.describeAutoScalingGroups p.name with
  | [] => ⟨[], [.validate], .failed "The auto scaling group was not found"⟩
  | [group] =>
    let new_load_balancers := p.load_balancers
    let old_load_balancers := group.loadBalancerNames
    let unique_new_load_balancers := new_load_balancers.filter fun l => !old_load_balancers.contains l
    let unique_old_load_balancers := old_load_balancers.filter fun l => !new_load_balancers.contains l
    let instances := group.instances.map (·.instanceId)
    if !groupAllInServiceHealthy group then
      ⟨[], [.validate], .failed "Instances in group must be healthy and in service"⟩
    else
      let trace1 : List Event := [.attachLoadBalancers group.autoScalingGroupName new_load_balancers]
      match gateExpiredEx (asgElbsGatePred p env group) env.gate with
      | .error e => ⟨trace1, [.validate, .prepareNew, .gateNewHealth], .crashed e⟩
      | .ok true =>
        if pyTruthy (asgElbsParamsGet p "rollback_on_failure") then
          ⟨trace1 ++ [.detachLoadBalancers group.autoScalingGroupName unique_new_load_balancers],
           [.validate, .prepareNew, .gateNewHealth, .rollback],
           .failed "Waited too long for target ELB to report instances as healthy"⟩
        else
          ⟨trace1, [.validate, .prepareNew, .gateNewHealth],
           .failed "Waited too long for target ELB to report instances as healthy"⟩
      | .ok false =>
        ⟨trace1 ++ [.detachLoadBalancers group.autoScalingGroupName unique_old_load_balancers],
         [.validate, .prepareNew, .gateNewHealth, .cutoverOld, .done],
         .ok [⟨group.autoScalingGroupName, new_load_balancers, instances,
               instanceStatusOf group⟩]⟩
  | _ =>
    ⟨[], [.validate],
     .failed "More than one auto scaling group matches the supplied group_name"⟩

/-- Parameters of `ec2_asg_target_groups`: its `argument_spec` declares
exactly `name`, `target_groups` and `wait_timeout` (plus the AWS connection
arguments, none of which is named `rollback_on_failure`). -/
structure AsgTgsParams where
  name : String
  target_groups : List String
  wait_timeout : Nat

/-- `module.params.get(key)` for `ec2_asg_target_groups`: `.get` of any
undeclared key — in particular `rollback_on_failure` — returns `None`. -/
def asgTgsParamsGet (p : AsgTgsParams) (key : String) : PyVal :=
  if key == "name" then .pyStr p.name
  else if key == "target_groups" then .pyList p.target_groups
  else if key == "wait_timeout" then .pyInt p.wait_timeout
  else .pyNone

/-- The AWS read-only oracle seen by one run of `ec2_asg_target_groups`;
`describeTargetGroups` returns the ARNs of the target groups matching the
requested names. -/
structure AsgTgsEnv where
  describeAutoScalingGroups : String → List AsgGroup
  describeTargetGroups : List String → List String
  targetHealth : Nat → String → String → List TargetHealth
  gate : GateClock

/-- The polling predicate of `ec2_asg_target_groups`, at poll iteration `k`.
The gate polls the resolved ARNs `new_target_groups`. -/
def asgTgsGatePred (env : AsgTgsEnv) (group : AsgGroup)
    (new_target_groups : List String) (k : Nat) : Except String Bool :=
  asgTgsHealthPred (instanceStatusOf group) new_target_groups (env.targetHealth k)

/-- `ec2_asg_target_groups.main`, lines 95-172 of the source.  In the
timeout branch, the rollback arm references `unique_new_load_balancers`,
a name never defined in this module, so entering it raises `NameError`. -/
def asgTgsMain (p : AsgTgsParams) (env : AsgTgsEnv) : RunResult :=
  match env.describeAutoScalingGroups p.name with
  | [] => ⟨[], [.validate], .failed "The auto scaling group was not found"⟩
  | [group] =>
    let new_target_groups := env.describeTargetGroups p.target_groups
    if new_target_groups.length < 1 then
      ⟨[], [.validate], .failed "No target groups found"⟩
    else
      let old_target_groups := group.targetGroupARNs
      let unique_old_target_groups := old_target_groups.filter fun t => !new_target_groups.contains t
      let instances := group.instances.map (·.instanceId)
      if !groupAllInServiceHealthy group then
        ⟨[], [.validate], .failed "Instances in group must be healthy and in service"⟩
      else
        let trace1 : List Event := [.attachTargetGroups group.autoScalingGroupName new_target_groups]
        match gateExpiredEx (asgTgsGatePred env group new_target_groups) env.gate with
        | .error e => ⟨trace1, [.validate, .prepareNew, .gateNewHealth], .crashed e⟩
        | .ok true =>
          if pyTruthy (asgTgsParamsGet p "rollback_on_failure") then
            ⟨trace1, [.validate, .prepareNew, .gateNewHealth, .rollback],
             .crashed "NameError: global name unique_new_load_balancers is not defined"⟩
          else
            ⟨trace1, [.validate, .prepareNew, .gateNewHealth],
             .failed "Waited too long for target ELB to report instances as healthy. No rollback action was taken."⟩
        | .ok false =>
          ⟨trace1 ++ [.detachTargetGroups group.autoScalingGroupName unique_old_target_groups],
           [.validate, .prepareNew, .gateNewHealth, .cutoverOld, .done],
           .ok [⟨group.autoScalingGroupName, new_target_groups, instances,
                 instanceStatusOf group⟩]⟩
  | _ =>
    ⟨[], [.validate],
     .failed "More than one auto scaling group matches the supplied group_name"⟩

/-- Formalisation of the restore discipline claimed for the cutover: every
adjacent detach/attach pair on the same group must be immediately followed by
a health-check restore call for that group exactly when `isElb` holds of the
group (i.e. its `HealthCheckType` is `ELB`). -/
def everyPairRestored (isElb : String → Bool) : List Event → Bool
  | [] => true
  | e :: rest =>
    (match e, rest with
     | .detachLoadBalancers g _, .attachLoadBalancers g2 _ :: rest2 =>
       if g == g2 then
         match rest2 with
         | .updateAutoScalingGroup g3 _ _ :: _ => g3 == g && isElb g
         | _ => !isElb g
       else true
     | .detachTargetGroups g _, .attachTargetGroups g2 _ :: rest2 =>
       if g == g2 then
         match rest2 with
         | .updateAutoScalingGroup g3 _ _ :: _ => g3 == g && isElb g
         | _ => !isElb g
       else true
     | _, _ => true) && everyPairRestored isElb rest

/-- Formalisation of the delta discipline claimed for attach calls: replaying
the trace from the initial attachment list of group `g`, every load-balancer
attach call addressed to `g` passes only endpoints not currently attached. -/
def attachesAreDeltas (g : String) : List String → List Event → Bool
  | _, [] => true
  | attached, .detachLoadBalancers g2 names :: rest =>
    attachesAreDeltas g
      (if g2 == g then attached.filter (fun l => !names.contains l) else attached) rest
  | attached, .attachLoadBalancers g2 names :: rest =>
    if g2 == g then
      names.all (fun l => !attached.contains l) &&
        attachesAreDeltas g (attached ++ names.filter fun l => !attached.contains l) rest
    else attachesAreDeltas g attached rest
  | attached, _ :: rest => attachesAreDeltas g attached rest

/-! ### Generic lemmas about the embedding -/

/-- Detaching a list from itself empties the attachment set. -/
theorem filter_not_contains_self (s : List String) :
    (s.filter fun l => !s.contains l) = [] := by
  rw [List.filter_eq_nil_iff]
  intro a ha
  simpa using ha

/-- Attaching onto an empty attachment set keeps the whole list. -/
theorem filter_not_contains_nil (t : List String) :
    (t.filter fun l => !(([] : List String).contains l)) = t := by
  rw [List.filter_eq_self]
  intro a _
  rfl

/-- If the post-loop deadline test passes, the loop flag was set. -/
theorem gateHealthy_of_not_expired {pred : Nat → Bool} {c : GateClock}
    (h : gateExpired pred c = false) : gateHealthy pred c.budget = true := by
  by_cases hh : gateHealthy pred c.budget = true
  · exact hh
  · unfold gateExpired at h
    rw [if_neg hh] at h
    exact absurd h (by simp)

/-- The loop flag is set exactly when the predicate holds at an iteration
within the clock budget. -/
theorem gateHealthy_exists {pred : Nat → Bool} {budget : Nat}
    (h : gateHealthy pred budget = true) : ∃ k, k < budget ∧ pred k = true := by
  unfold gateHealthy at h
  rcases List.any_eq_true.mp h with ⟨k, hk, hpk⟩
  exact ⟨k, List.mem_range.mp hk, hpk⟩

/-- `List.all` only depends on the values of the function on the list. -/
theorem all_congr_of_mem {l : List α} {f g : α → Bool}
    (h : ∀ x ∈ l, f x = g x) : l.all f = l.all g := by
  induction l with
  | nil => rfl
  | cons a t ih =>
    simp only [List.all_cons]
    rw [h a (by simp), ih fun x hx => h x (by simp [hx])]

/-! ### Concrete fixtures (scenario A/B of the specification) -/

/-- The single member of the live fleet in the concrete scenarios. -/
def blueInstance : AsgInstance := ⟨"i-blue1", "InService", "Healthy"⟩

/-- The single member of the candidate fleet in the concrete scenarios. -/
def greenInstance : AsgInstance := ⟨"i-green1", "InService", "Healthy"⟩

/-- A candidate-fleet member whose baseline lifecycle is `Pending`. -/
def pendingInstance : AsgInstance := ⟨"i-pending1", "Pending", "Healthy"⟩

/-- The live fleet: attached to `lb-blue` / `tg-blue`, ELB health checks. -/
def webBlue : AsgGroup := ⟨"web-blue", ["lb-blue"], ["tg-blue"], [blueInstance], "ELB", 300⟩

/-- The candidate fleet: attached to `lb-green` / `tg-green`. -/
def webGreen : AsgGroup := ⟨"web-green", ["lb-green"], ["tg-green"], [greenInstance], "ELB", 300⟩

/-- A candidate fleet with one `Pending` member. -/
def webGreenPending : AsgGroup :=
  ⟨"web-green", ["lb-green"], ["tg-green"], [greenInstance, pendingInstance], "ELB", 300⟩

/-- Group lookup returning the two scenario fleets. -/
def lookupBlueGreen : String → List AsgGroup := fun n =>
  if n == "web-blue" then [webBlue]
  else if n == "web-green" then [webGreen]
  else []

/-- Group lookup where the candidate fleet has a `Pending` member. -/
def lookupBlueGreenPending : String → List AsgGroup := fun n =>
  if n == "web-blue" then [webBlue]
  else if n == "web-green" then [webGreenPending]
  else []

/-- Scenario parameters for the ELB cutover: no standby override, no standby
verification, rollback enabled. -/
def cutoverParamsBG : CutoverElbParams := ⟨"web-blue", "web-green", none, false, true, 300⟩

/-- Scenario parameters for the target-group cutover. -/
def cutoverTgParamsBG : CutoverTgParams := ⟨"web-blue", "web-green", none, false, true, 300⟩

/-- ELB cutover environment in which the phase-3 deadline passes before the
first poll (scenario B). -/
def elbEnvTimeout : CutoverElbEnv :=
  ⟨lookupBlueGreen, fun _ _ => [], ⟨0, true⟩, fun _ _ => [], ⟨0, true⟩, fun _ _ => [], ⟨0, true⟩⟩

/-- Target-group cutover environment with an immediate phase-3 timeout. -/
def tgEnvTimeout : CutoverTgEnv :=
  ⟨lookupBlueGreen, fun _ _ _ => [], ⟨0, true⟩, fun _ _ _ => [], ⟨0, true⟩,
   fun _ _ _ => [], ⟨0, true⟩⟩

/-- ELB cutover environment in which every gate succeeds at its first poll
(scenario A): the candidate member is in service on every ELB it is asked
about, and no original member remains registered anywhere. -/
def elbEnvSuccess : CutoverElbEnv :=
  ⟨lookupBlueGreen, fun _ _ => [("i-green1", "InService")], ⟨1, false⟩,
   fun _ _ => [], ⟨1, false⟩,
   fun _ _ => [("i-blue1", "InService")], ⟨1, false⟩⟩

/-- Target-group cutover environment in which every gate succeeds at its
first poll. -/
def tgEnvSuccess : CutoverTgEnv :=
  ⟨lookupBlueGreen, fun _ _ _ => [⟨"healthy", none⟩], ⟨1, false⟩,
   fun _ _ _ => [], ⟨1, false⟩,
   fun _ _ _ => [⟨"healthy", none⟩], ⟨1, false⟩⟩

/-- A single group for the single-group modules: attached to `lb-a` /
`arn-a`, EC2 health checks, one healthy member. -/
def asgA : AsgGroup := ⟨"asg-a", ["lb-a"], ["arn-a"], [⟨"i-a", "InService", "Healthy"⟩], "EC2", 0⟩

/-- Lookup returning only `asg-a`. -/
def lookupAsgA : String → List AsgGroup := fun n => if n == "asg-a" then [asgA] else []

/-- `ec2_asg_elbs` request keeping `lb-a` and adding `lb-b`. -/
def asgElbsParamsAB : AsgElbsParams := ⟨"asg-a", ["lb-a", "lb-b"], 300⟩

/-- `ec2_asg_elbs` environment where the gate succeeds at the first poll. -/
def asgElbsEnvSuccess : AsgElbsEnv :=
  ⟨lookupAsgA, fun _ _ => [("i-a", "InService")], ⟨1, false⟩⟩

/-- `ec2_asg_elbs` environment where the member never registers and the
deadline passes. -/
def asgElbsEnvTimeout : AsgElbsEnv := ⟨lookupAsgA, fun _ _ => [], ⟨1, true⟩⟩

/-- `ec2_asg_target_groups` request for the target group named `tg-b`. -/
def asgTgsParamsB : AsgTgsParams := ⟨"asg-a", ["tg-b"], 300⟩

/-- `ec2_asg_target_groups` environment where `tg-b` resolves to `arn-b`,
the member never registers and the deadline passes. -/
def asgTgsEnvTimeout : AsgTgsEnv :=
  ⟨lookupAsgA, fun _ => ["arn-b"], fun _ _ _ => [], ⟨1, true⟩⟩

/-! ### Structural lemmas about the cutover runs -/

/-- The complete run record of `ec2_asg_cutover_elb` when validation passes,
the phase-3 gate expires and rollback is enabled. -/
theorem cutoverElb_run_rollback (p : CutoverElbParams) (env : CutoverElbEnv)
    (cur new : AsgGroup)
    (hne : (p.current_group_name == p.new_group_name) = false)
    (hcur : env.describeAutoScalingGroups p.current_group_name = [cur])
    (hnew : env.describeAutoScalingGroups p.new_group_name = [new])
    (hlb1 : (cur.loadBalancerNames.length == 0) = false)
    (hlb2 : (new.loadBalancerNames.length == 0) = false)
    (hpre : groupAllInServiceHealthy new = true)
    (hexp : gateExpired (cutoverElbGate3Pred env cur new) env.gate3 = true)
    (hrb : p.rollback_on_failure = true) :
    cutoverElbMain p env =
      ⟨([.detachLoadBalancers new.autoScalingGroupName new.loadBalancerNames,
         .attachLoadBalancers new.autoScalingGroupName cur.loadBalancerNames] ++
        (if new.healthCheckType == "ELB" then
          [.updateAutoScalingGroup new.autoScalingGroupName new.healthCheckType
            new.healthCheckGracePeriod] else [])) ++
       [.detachLoadBalancers new.autoScalingGroupName cur.loadBalancerNames,
        .attachLoadBalancers new.autoScalingGroupName new.loadBalancerNames],
       [.validate, .prepareNew, .gateNewHealth, .rollback],
       .failed "Waited too long for target ELB to report instances as healthy"⟩ := by
  simp only [cutoverElbMain, hne, hcur, hnew, Bool.false_eq_true, if_false,
    cutoverElbResolved, hlb1, hlb2, hpre, Bool.not_true,
    cutoverElbAfterValidation, hexp, hrb, if_true]

/-- The complete run record of `ec2_asg_cutover_target_groups` when
validation passes, the phase-3 gate expires and rollback is enabled. -/
theorem cutoverTg_run_rollback (p : CutoverTgParams) (env : CutoverTgEnv)
    (cur new : AsgGroup)
    (hne : (p.current_group_name == p.new_group_name) = false)
    (hcur : env.describeAutoScalingGroups p.current_group_name = [cur])
    (hnew : env.describeAutoScalingGroups p.new_group_name = [new])
    (htg1 : (cur.targetGroupARNs.length == 0) = false)
    (htg2 : (new.targetGroupARNs.length == 0) = false)
    (hpre : groupAllInServiceHealthy new = true)
    (hexp : gateExpired (cutoverTgGate3Pred env cur new) env.gate3 = true)
    (hrb : p.rollback_on_failure = true) :
    cutoverTgMain p env =
      ⟨([.detachTargetGroups new.autoScalingGroupName new.targetGroupARNs,
         .attachTargetGroups new.autoScalingGroupName cur.targetGroupARNs] ++
        (if new.healthCheckType == "ELB" then
          [.updateAutoScalingGroup new.autoScalingGroupName new.healthCheckType
            new.healthCheckGracePeriod] else [])) ++
       [.detachTargetGroups new.autoScalingGroupName cur.targetGroupARNs,
        .attachTargetGroups new.autoScalingGroupName new.targetGroupARNs],
       [.validate, .prepareNew, .gateNewHealth, .rollback],
       .failed "Waited too long for destination target group to report instances as healthy. Deployment has been rolled back."⟩ := by
  simp only [cutoverTgMain, hne, hcur, hnew, Bool.false_eq_true, if_false,
    cutoverTgResolved, htg1, htg2, hpre, Bool.not_true,
    cutoverTgAfterValidation, hexp, hrb, if_true]

/-- When the phase-3 gate does not expire, the trace of
`ec2_asg_cutover_elb` is exactly the phase-2 pair, its conditional restore,
the phase-4 pair and its conditional restore — the later gates add no
mutation calls. -/
theorem cutoverElb_trace_success (p : CutoverElbParams) (env : CutoverElbEnv)
    (cur new : AsgGroup)
    (hne : (p.current_group_name == p.new_group_name) = false)
    (hcur : env.describeAutoScalingGroups p.current_group_name = [cur])
    (hnew : env.describeAutoScalingGroups p.new_group_name = [new])
    (hlb1 : (cur.loadBalancerNames.length == 0) = false)
    (hlb2 : (new.loadBalancerNames.length == 0) = false)
    (hpre : groupAllInServiceHealthy new = true)
    (hexp : gateExpired (cutoverElbGate3Pred env cur new) env.gate3 = false) :
    (cutoverElbMain p env).trace =
      (([.detachLoadBalancers new.autoScalingGroupName new.loadBalancerNames,
         .attachLoadBalancers new.autoScalingGroupName cur.loadBalancerNames] ++
        (if new.healthCheckType == "ELB" then
          [.updateAutoScalingGroup new.autoScalingGroupName new.healthCheckType
            new.healthCheckGracePeriod] else [])) ++
       [.detachLoadBalancers cur.autoScalingGroupName cur.loadBalancerNames,
        .attachLoadBalancers cur.autoScalingGroupName
          (pyListOr p.standby_load_balancers new.loadBalancerNames)]) ++
      (if cur.healthCheckType == "ELB" then
        [.updateAutoScalingGroup cur.autoScalingGroupName cur.healthCheckType
          cur.healthCheckGracePeriod] else []) := by
  simp only [cutoverElbMain, hne, hcur, hnew, Bool.false_eq_true, if_false,
    cutoverElbResolved, hlb1, hlb2, hpre, Bool.not_true,
    cutoverElbAfterValidation, hexp]
  by_cases h5 : gateExpired (cutoverElbGate5Pred env cur) env.gate5 = true
  · simp [h5]
  · by_cases hv : p.verify_standby_instances = true
    · by_cases h6 : gateExpired
        (cutoverElbGate6Pred env cur (pyListOr p.standby_load_balancers new.loadBalancerNames))
        env.gate6 = true
      · simp [h5, hv, h6]
      · simp [h5, hv, h6]
    · simp [h5, hv]

/-- If an `ec2_asg_cutover_elb` run entered the deregistration gate, the
phase-3 gate did not expire. -/
theorem cutoverElb_gateDereg_not_expired {p : CutoverElbParams} {env : CutoverElbEnv}
    {cur new : AsgGroup}
    (hcur : env.describeAutoScalingGroups p.current_group_name = [cur])
    (hnew : env.describeAutoScalingGroups p.new_group_name = [new])
    (h : Phase.gateDereg ∈ (cutoverElbMain p env).phases) :
    gateExpired (cutoverElbGate3Pred env cur new) env.gate3 = false := by
  by_cases hexp : gateExpired (cutoverElbGate3Pred env cur new) env.gate3 = true
  case neg => simp only [Bool.not_eq_true] at hexp; exact hexp
  case pos =>
    exfalso
    simp only [cutoverElbMain, hcur, hnew] at h
    by_cases hne : (p.current_group_name == p.new_group_name) = true
    · simp [hne] at h
    · simp only [Bool.not_eq_true] at hne
      simp only [hne, Bool.false_eq_true, if_false, cutoverElbResolved] at h
      by_cases h1 : (cur.loadBalancerNames.length == 0) = true
      · simp [h1] at h
      · simp only [Bool.not_eq_true] at h1
        simp only [h1, Bool.false_eq_true, if_false] at h
        by_cases h2 : (new.loadBalancerNames.length == 0) = true
        · simp [h2] at h
        · simp only [Bool.not_eq_true] at h2
          simp only [h2, Bool.false_eq_true, if_false] at h
          by_cases h3 : groupAllInServiceHealthy new = true
          · simp only [h3, Bool.not_true, Bool.false_eq_true, if_false,
              cutoverElbAfterValidation, hexp, if_true] at h
            by_cases h4 : p.rollback_on_failure = true <;> simp [h4] at h
          · simp only [Bool.not_eq_true] at h3
            simp [h3] at h

/-- If an `ec2_asg_cutover_target_groups` run entered the deregistration
gate, the phase-3 gate did not expire. -/
theorem cutoverTg_gateDereg_not_expired {p : CutoverTgParams} {env : CutoverTgEnv}
    {cur new : AsgGroup}
    (hcur : env.describeAutoScalingGroups p.current_group_name = [cur])
    (hnew : env.describeAutoScalingGroups p.new_group_name = [new])
    (h : Phase.gateDereg ∈ (cutoverTgMain p env).phases) :
    gateExpired (cutoverTgGate3Pred env cur new) env.gate3 = false := by
  by_cases hexp : gateExpired (cutoverTgGate3Pred env cur new) env.gate3 = true
  case neg => simp only [Bool.not_eq_true] at hexp; exact hexp
  case pos =>
    exfalso
    simp only [cutoverTgMain, hcur, hnew] at h
    by_cases hne : (p.current_group_name == p.new_group_name) = true
    · simp [hne] at h
    · simp only [Bool.not_eq_true] at hne
      simp only [hne, Bool.false_eq_true, if_false, cutoverTgResolved] at h
      by_cases h1 : (cur.targetGroupARNs.length == 0) = true
      · simp [h1] at h
      · simp only [Bool.not_eq_true] at h1
        simp only [h1, Bool.false_eq_true, if_false] at h
        by_cases h2 : (new.targetGroupARNs.length == 0) = true
        · simp [h2] at h
        · simp only [Bool.not_eq_true] at h2
          simp only [h2, Bool.false_eq_true, if_false] at h
          by_cases h3 : groupAllInServiceHealthy new = true
          · simp only [h3, Bool.not_true, Bool.false_eq_true, if_false,
              cutoverTgAfterValidation, hexp, if_true] at h
            by_cases h4 : p.rollback_on_failure = true <;> simp [h4] at h
          · simp only [Bool.not_eq_true] at h3
            simp [h3] at h

/-- Detaching exactly the attached list empties the attachment state. -/
theorem lbAttachedAfter_detach_self (g : String) (s : List String) (rest : List Event) :
    lbAttachedAfter g s (.detachLoadBalancers g s :: rest) = lbAttachedAfter g [] rest := by
  simp only [lbAttachedAfter, beq_self_eq_true, if_true, filter_not_contains_self]

/-- Attaching onto an empty attachment state yields the attached list. -/
theorem lbAttachedAfter_attach_nil (g : String) (t : List String) (rest : List Event) :
    lbAttachedAfter g [] (.attachLoadBalancers g t :: rest) = lbAttachedAfter g t rest := by
  simp only [lbAttachedAfter, beq_self_eq_true, if_true, filter_not_contains_nil,
    List.nil_append]

/-- Health-check restore calls do not change attachments. -/
theorem lbAttachedAfter_update (g g2 hct : String) (grace : Nat) (x : List String)
    (rest : List Event) :
    lbAttachedAfter g x (.updateAutoScalingGroup g2 hct grace :: rest) =
      lbAttachedAfter g x rest := rfl

theorem tgAttachedAfter_detach_self (g : String) (s : List String) (rest : List Event) :
    tgAttachedAfter g s (.detachTargetGroups g s :: rest) = tgAttachedAfter g [] rest := by
  simp only [tgAttachedAfter, beq_self_eq_true, if_true, filter_not_contains_self]

theorem tgAttachedAfter_attach_nil (g : String) (t : List String) (rest : List Event) :
    tgAttachedAfter g [] (.attachTargetGroups g t :: rest) = tgAttachedAfter g t rest := by
  simp only [tgAttachedAfter, beq_self_eq_true, if_true, filter_not_contains_nil,
    List.nil_append]

theorem tgAttachedAfter_update (g g2 hct : String) (grace : Nat) (x : List String)
    (rest : List Event) :
    tgAttachedAfter g x (.updateAutoScalingGroup g2 hct grace :: rest) =
      tgAttachedAfter g x rest := rfl

/-- Replaying the phase-2 pair, its conditional restore, and the rollback
pair leaves the attachment state where it started. -/
theorem lbAttachedAfter_rollback_cycle (g hct : String) (grace : Nat) (s t : List String) :
    lbAttachedAfter g s
      (([.detachLoadBalancers g s, .attachLoadBalancers g t] ++
        (if (hct == "ELB") = true then [.updateAutoScalingGroup g hct grace] else [])) ++
       [.detachLoadBalancers g t, .attachLoadBalancers g s]) = s := by
  cases hhct : (hct == "ELB")
  · simp only [hhct, Bool.false_eq_true, if_false, List.cons_append, List.nil_append]
    rw [lbAttachedAfter_detach_self, lbAttachedAfter_attach_nil,
      lbAttachedAfter_detach_self, lbAttachedAfter_attach_nil]
    rfl
  · simp only [hhct, if_true, List.cons_append, List.nil_append]
    rw [lbAttachedAfter_detach_self, lbAttachedAfter_attach_nil, lbAttachedAfter_update,
      lbAttachedAfter_detach_self, lbAttachedAfter_attach_nil]
    rfl

/-- Target-group version of the rollback replay. -/
theorem tgAttachedAfter_rollback_cycle (g hct : String) (grace : Nat) (s t : List String) :
    tgAttachedAfter g s
      (([.detachTargetGroups g s, .attachTargetGroups g t] ++
        (if (hct == "ELB") = true then [.updateAutoScalingGroup g hct grace] else [])) ++
       [.detachTargetGroups g t, .attachTargetGroups g s]) = s := by
  cases hhct : (hct == "ELB")
  · simp only [hhct, Bool.false_eq_true, if_false, List.cons_append, List.nil_append]
    rw [tgAttachedAfter_detach_self, tgAttachedAfter_attach_nil,
      tgAttachedAfter_detach_self, tgAttachedAfter_attach_nil]
    rfl
  · simp only [hhct, if_true, List.cons_append, List.nil_append]
    rw [tgAttachedAfter_detach_self, tgAttachedAfter_attach_nil, tgAttachedAfter_update,
      tgAttachedAfter_detach_self, tgAttachedAfter_attach_nil]
    rfl

/-- C1: if the phase-3 health gate times out and rollback is enabled, both
cutover modules reverse phase 2 on the candidate fleet (detach the
destination endpoints, re-attach the source endpoints): the candidate
fleet's final attached endpoint set equals its endpoint set at the start of
the operation, the run terminates with failure, and no later phase runs. -/
theorem cutover_rollback_restores_candidate_endpoints :
    (∀ (p : CutoverElbParams) (env : CutoverElbEnv) (cur new : AsgGroup),
      (p.current_group_name == p.new_group_name) = false →
      env.describeAutoScalingGroups p.current_group_name = [cur] →
      env.describeAutoScalingGroups p.new_group_name = [new] →
      (cur.loadBalancerNames.length == 0) = false →
      (new.loadBalancerNames.length == 0) = false →
      groupAllInServiceHealthy new = true →
      gateExpired (cutoverElbGate3Pred env cur new) env.gate3 = true →
      p.rollback_on_failure = true →
      lbAttachedAfter new.autoScalingGroupName new.loadBalancerNames
          (cutoverElbMain p env).trace = new.loadBalancerNames ∧
        (cutoverElbMain p env).outcome =
          .failed "Waited too long for target ELB to report instances as healthy" ∧
        (cutoverElbMain p env).phases = [.validate, .prepareNew, .gateNewHealth, .rollback]) ∧
    (∀ (p : CutoverTgParams) (env : CutoverTgEnv) (cur new : AsgGroup),
      (p.current_group_name == p.new_group_name) = false →
      env.describeAutoScalingGroups p.current_group_name = [cur] →
      env.describeAutoScalingGroups p.new_group_name = [new] →
      (cur.targetGroupARNs.length == 0) = false →
      (new.targetGroupARNs.length == 0) = false →
      groupAllInServiceHealthy new = true →
      gateExpired (cutoverTgGate3Pred env cur new) env.gate3 = true →
      p.rollback_on_failure = true →
      tgAttachedAfter new.autoScalingGroupName new.targetGroupARNs
          (cutoverTgMain p env).trace = new.targetGroupARNs ∧
        (cutoverTgMain p env).outcome =
          .failed "Waited too long for destination target group to report instances as healthy. Deployment has been rolled back." ∧
        (cutoverTgMain p env).phases = [.validate, .prepareNew, .gateNewHealth, .rollback]) := by
  constructor
  · intro p env cur new hne hcur hnew hlb1 hlb2 hpre hexp hrb
    have hr := cutoverElb_run_rollback p env cur new hne hcur hnew hlb1 hlb2 hpre hexp hrb
    refine ⟨?_, by rw [hr], by rw [hr]⟩
    rw [hr]
    exact lbAttachedAfter_rollback_cycle new.autoScalingGroupName new.healthCheckType
      new.healthCheckGracePeriod new.loadBalancerNames cur.loadBalancerNames
  · intro p env cur new hne hcur hnew htg1 htg2 hpre hexp hrb
    have hr := cutoverTg_run_rollback p env cur new hne hcur hnew htg1 htg2 hpre hexp hrb
    refine ⟨?_, by rw [hr], by rw [hr]⟩
    rw [hr]
    exact tgAttachedAfter_rollback_cycle new.autoScalingGroupName new.healthCheckType
      new.healthCheckGracePeriod new.targetGroupARNs cur.targetGroupARNs

/-- Witness for C1: scenario B (immediate phase-3 timeout, rollback enabled)
on the concrete blue/green fixtures, for both cutover modules. -/
theorem cutover_rollback_restores_candidate_endpoints_witness :
    (gateExpired (cutoverElbGate3Pred elbEnvTimeout webBlue webGreen) elbEnvTimeout.gate3 = true ∧
     lbAttachedAfter webGreen.autoScalingGroupName webGreen.loadBalancerNames
        (cutoverElbMain cutoverParamsBG elbEnvTimeout).trace = webGreen.loadBalancerNames ∧
     (cutoverElbMain cutoverParamsBG elbEnvTimeout).phases =
        [.validate, .prepareNew, .gateNewHealth, .rollback]) ∧
    (gateExpired (cutoverTgGate3Pred tgEnvTimeout webBlue webGreen) tgEnvTimeout.gate3 = true ∧
     tgAttachedAfter webGreen.autoScalingGroupName webGreen.targetGroupARNs
        (cutoverTgMain cutoverTgParamsBG tgEnvTimeout).trace = webGreen.targetGroupARNs ∧
     (cutoverTgMain cutoverTgParamsBG tgEnvTimeout).phases =
        [.validate, .prepareNew, .gateNewHealth, .rollback]) := by
  constructor
  · have h := cutover_rollback_restores_candidate_endpoints.1 cutoverParamsBG elbEnvTimeout
      webBlue webGreen (by decide) (by decide) (by decide) (by decide) (by decide) (by decide)
      (by decide) (by decide)
    exact ⟨by decide, h.1, h.2.2⟩
  · have h := cutover_rollback_restores_candidate_endpoints.2 cutoverTgParamsBG tgEnvTimeout
      webBlue webGreen (by decide) (by decide) (by decide) (by decide) (by decide) (by decide)
      (by decide) (by decide)
    exact ⟨by decide, h.1, h.2.2⟩

/-- C2: in both cutover modules, the deregistration wait loop (phase 5) is
entered only if the phase-3 health gate exited with success, i.e. at some
poll iteration within the phase-3 deadline every in-scope candidate member
was reported healthy on every destination endpoint; a phase-3 timeout never
reaches the deregistration gate. -/
theorem dereg_gate_requires_phase3_success :
    (∀ (p : CutoverElbParams) (env : CutoverElbEnv) (cur new : AsgGroup),
      env.describeAutoScalingGroups p.current_group_name = [cur] →
      env.describeAutoScalingGroups p.new_group_name = [new] →
      Phase.gateDereg ∈ (cutoverElbMain p env).phases →
      ∃ k, k < env.gate3.budget ∧ cutoverElbGate3Pred env cur new k = true) ∧
    (∀ (p : CutoverTgParams) (env : CutoverTgEnv) (cur new : AsgGroup),
      env.describeAutoScalingGroups p.current_group_name = [cur] →
      env.describeAutoScalingGroups p.new_group_name = [new] →
      Phase.gateDereg ∈ (cutoverTgMain p env).phases →
      ∃ k, k < env.gate3.budget ∧ cutoverTgGate3Pred env cur new k = true) := by
  constructor
  · intro p env cur new hcur hnew h
    exact gateHealthy_exists
      (gateHealthy_of_not_expired (cutoverElb_gateDereg_not_expired hcur hnew h))
  · intro p env cur new hcur hnew h
    exact gateHealthy_exists
      (gateHealthy_of_not_expired (cutoverTg_gateDereg_not_expired hcur hnew h))

/-- Witness for C2: scenario A (all gates succeed at the first poll) on the
concrete blue/green fixtures; both runs enter the deregistration gate and
the phase-3 predicate indeed held within the budget. -/
theorem dereg_gate_requires_phase3_success_witness :
    (Phase.gateDereg ∈ (cutoverElbMain cutoverParamsBG elbEnvSuccess).phases ∧
     ∃ k, k < elbEnvSuccess.gate3.budget ∧
       cutoverElbGate3Pred elbEnvSuccess webBlue webGreen k = true) ∧
    (Phase.gateDereg ∈ (cutoverTgMain cutoverTgParamsBG tgEnvSuccess).phases ∧
     ∃ k, k < tgEnvSuccess.gate3.budget ∧
       cutoverTgGate3Pred tgEnvSuccess webBlue webGreen k = true) := by
  constructor
  · exact ⟨by decide, dereg_gate_requires_phase3_success.1 cutoverParamsBG elbEnvSuccess
      webBlue webGreen (by decide) (by decide) (by decide)⟩
  · exact ⟨by decide, dereg_gate_requires_phase3_success.2 cutoverTgParamsBG tgEnvSuccess
      webBlue webGreen (by decide) (by decide) (by decide)⟩

/-- C3: when the supplied live-fleet name equals the supplied candidate-fleet
name, both cutover modules fail validation immediately: no mutation call is
issued and only the validation phase runs. -/
theorem identical_names_rejected_without_mutation :
    (∀ (p : CutoverElbParams) (env : CutoverElbEnv),
      p.current_group_name = p.new_group_name →
      cutoverElbMain p env =
        ⟨[], [.validate],
         .failed "current_group_name and new_group_name cannot be the same!"⟩) ∧
    (∀ (p : CutoverTgParams) (env : CutoverTgEnv),
      p.current_group_name = p.new_group_name →
      cutoverTgMain p env =
        ⟨[], [.validate],
         .failed "current_group_name and new_group_name cannot be the same!"⟩) := by
  constructor
  · intro p env h
    simp [cutoverElbMain, h]
  · intro p env h
    simp [cutoverTgMain, h]

/-- ELB cutover parameters naming the same group twice. -/
def cutoverParamsSame : CutoverElbParams := ⟨"web-blue", "web-blue", none, false, true, 300⟩

/-- Target-group cutover parameters naming the same group twice. -/
def cutoverTgParamsSame : CutoverTgParams := ⟨"web-blue", "web-blue", none, false, true, 300⟩

/-- Witness for C3: both modules, invoked with identical names, fail with an
empty trace. -/
theorem identical_names_rejected_without_mutation_witness :
    (cutoverParamsSame.current_group_name = cutoverParamsSame.new_group_name ∧
     cutoverElbMain cutoverParamsSame elbEnvTimeout =
       ⟨[], [.validate],
        .failed "current_group_name and new_group_name cannot be the same!"⟩) ∧
    (cutoverTgParamsSame.current_group_name = cutoverTgParamsSame.new_group_name ∧
     cutoverTgMain cutoverTgParamsSame tgEnvTimeout =
       ⟨[], [.validate],
        .failed "current_group_name and new_group_name cannot be the same!"⟩) :=
  ⟨⟨by decide, identical_names_rejected_without_mutation.1 cutoverParamsSame elbEnvTimeout
      (by decide)⟩,
   ⟨by decide, identical_names_rejected_without_mutation.2 cutoverTgParamsSame tgEnvTimeout
      (by decide)⟩⟩

/-- C4: both health-gate predicates (used by phase 3 and by the optional
phase-6 standby gate) only inspect members whose baseline snapshot lifecycle
is `InService`: if two health oracles agree on every baseline-`InService`
member, the gate outcome is identical, so the live health state of a member
with baseline lifecycle `Pending` can never cause a gate to report
not-yet-healthy. -/
theorem healthgate_ignores_non_inservice_members :
    (∀ (hct : String) (snapshot : List (String × String × String)) (lbs : List String)
       (h h2 : String → List (String × String)),
      (∀ lb ∈ lbs, ∀ e ∈ snapshot, e.2.1 = "InService" →
        pyDictLookup (h lb) e.1 = pyDictLookup (h2 lb) e.1) →
      elbHealthPred hct snapshot lbs h = elbHealthPred hct snapshot lbs h2) ∧
    (∀ (hct : String) (snapshot : List (String × String × String)) (tgs : List String)
       (h h2 : String → String → List TargetHealth),
      (∀ e ∈ snapshot, e.2.1 = "InService" → ∀ tg ∈ tgs, h tg e.1 = h2 tg e.1) →
      tgHealthPred hct snapshot tgs h = tgHealthPred hct snapshot tgs h2) := by
  constructor
  · intro hct snapshot lbs h h2 hag
    unfold elbHealthPred
    apply all_congr_of_mem
    intro lb hlb
    apply all_congr_of_mem
    intro e he
    by_cases hc : (e.2.1 == "InService" && (e.2.2 == "Healthy" || hct != "ELB")) = true
    · have hin : e.2.1 = "InService" := by
        simp only [Bool.and_eq_true, beq_iff_eq] at hc
        exact hc.1
      simp only [hc, if_true]
      rw [hag lb hlb e he hin]
    · simp only [Bool.not_eq_true] at hc
      simp only [hc, Bool.false_eq_true, if_false]
  · intro hct snapshot tgs h h2 hag
    unfold tgHealthPred
    apply all_congr_of_mem
    intro e he
    by_cases hc : (e.2.1 == "InService" && (e.2.2 == "Healthy" || hct != "ELB")) = true
    · have hin : e.2.1 = "InService" := by
        simp only [Bool.and_eq_true, beq_iff_eq] at hc
        exact hc.1
      simp only [hc, if_true]
      apply all_congr_of_mem
      intro tg htg
      rw [hag e he hin tg htg]
    · simp only [Bool.not_eq_true] at hc
      simp only [hc, Bool.false_eq_true, if_false]

/-- Baseline snapshot with one `InService` member and one `Pending` member. -/
def pendSnapshot : List (String × String × String) :=
  [("i-green1", "InService", "Healthy"), ("i-pending1", "Pending", "Unhealthy")]

/-- ELB health oracle where the pending member is absent. -/
def elbHealthA : String → List (String × String) := fun _ => [("i-green1", "InService")]

/-- ELB health oracle where the pending member is registered out of service. -/
def elbHealthB : String → List (String × String) :=
  fun _ => [("i-green1", "InService"), ("i-pending1", "OutOfService")]

/-- Target-group health oracle where the pending member has no record. -/
def tgHealthA : String → String → List TargetHealth :=
  fun _ iid => if iid == "i-green1" then [⟨"healthy", none⟩] else []

/-- Target-group health oracle where the pending member is unhealthy. -/
def tgHealthB : String → String → List TargetHealth :=
  fun _ iid => if iid == "i-green1" then [⟨"healthy", none⟩] else [⟨"unhealthy", none⟩]

/-- Witness for C4: varying the live health of the `Pending` member between
absent, out-of-service and unhealthy does not change either gate predicate. -/
theorem healthgate_ignores_non_inservice_members_witness :
    ((∀ lb ∈ ["lb-blue"], ∀ e ∈ pendSnapshot, e.2.1 = "InService" →
        pyDictLookup (elbHealthA lb) e.1 = pyDictLookup (elbHealthB lb) e.1) ∧
     elbHealthPred "ELB" pendSnapshot ["lb-blue"] elbHealthA =
       elbHealthPred "ELB" pendSnapshot ["lb-blue"] elbHealthB) ∧
    ((∀ e ∈ pendSnapshot, e.2.1 = "InService" → ∀ tg ∈ ["tg-blue"],
        tgHealthA tg e.1 = tgHealthB tg e.1) ∧
     tgHealthPred "ELB" pendSnapshot ["tg-blue"] tgHealthA =
       tgHealthPred "ELB" pendSnapshot ["tg-blue"] tgHealthB) :=
  ⟨⟨by decide, healthgate_ignores_non_inservice_members.1 "ELB" pendSnapshot ["lb-blue"]
      elbHealthA elbHealthB (by decide)⟩,
   ⟨by decide, healthgate_ignores_non_inservice_members.2 "ELB" pendSnapshot ["tg-blue"]
      tgHealthA tgHealthB (by decide)⟩⟩

/-- C5: if either fleet has an empty attached endpoint set of the relevant
kind at resolution time, both cutover modules reject the operation with no
mutation call issued. -/
theorem empty_endpoint_set_rejected_before_mutation :
    (∀ (p : CutoverElbParams) (env : CutoverElbEnv) (cur new : AsgGroup),
      env.describeAutoScalingGroups p.current_group_name = [cur] →
      env.describeAutoScalingGroups p.new_group_name = [new] →
      cur.loadBalancerNames = [] ∨ new.loadBalancerNames = [] →
      (cutoverElbMain p env).trace = [] ∧
        ∃ m, (cutoverElbMain p env).outcome = .failed m) ∧
    (∀ (p : CutoverTgParams) (env : CutoverTgEnv) (cur new : AsgGroup),
      env.describeAutoScalingGroups p.current_group_name = [cur] →
      env.describeAutoScalingGroups p.new_group_name = [new] →
      cur.targetGroupARNs = [] ∨ new.targetGroupARNs = [] →
      (cutoverTgMain p env).trace = [] ∧
        ∃ m, (cutoverTgMain p env).outcome = .failed m) := by
  constructor
  · intro p env cur new hcur hnew hemp
    have key : ∃ m, cutoverElbMain p env = ⟨[], [.validate], .failed m⟩ := by
      by_cases hne : (p.current_group_name == p.new_group_name) = true
      · exact ⟨"current_group_name and new_group_name cannot be the same!",
          by simp [cutoverElbMain, hne]⟩
      · simp only [Bool.not_eq_true] at hne
        rcases hemp with hc | hn
        · exact ⟨"No load balancers are attached to the current auto scaling group",
            by simp [cutoverElbMain, hne, hcur, hnew, cutoverElbResolved, hc]⟩
        · by_cases hc2 : cur.loadBalancerNames = []
          · exact ⟨"No load balancers are attached to the current auto scaling group",
              by simp [cutoverElbMain, hne, hcur, hnew, cutoverElbResolved, hc2]⟩
          · exact ⟨"No load balancers are attached to the new auto scaling group",
              by simp [cutoverElbMain, hne, hcur, hnew, cutoverElbResolved,
                List.length_eq_zero, hc2, hn]⟩
    rcases key with ⟨m, hm⟩
    exact ⟨by rw [hm], ⟨m, by rw [hm]⟩⟩
  · intro p env cur new hcur hnew hemp
    have key : ∃ m, cutoverTgMain p env = ⟨[], [.validate], .failed m⟩ := by
      by_cases hne : (p.current_group_name == p.new_group_name) = true
      · exact ⟨"current_group_name and new_group_name cannot be the same!",
          by simp [cutoverTgMain, hne]⟩
      · simp only [Bool.not_eq_true] at hne
        rcases hemp with hc | hn
        · exact ⟨"No target groups are attached to the current auto scaling group",
            by simp [cutoverTgMain, hne, hcur, hnew, cutoverTgResolved, hc]⟩
        · by_cases hc2 : cur.targetGroupARNs = []
          · exact ⟨"No target groups are attached to the current auto scaling group",
              by simp [cutoverTgMain, hne, hcur, hnew, cutoverTgResolved, hc2]⟩
          · exact ⟨"No target groups are attached to the new auto scaling group",
              by simp [cutoverTgMain, hne, hcur, hnew, cutoverTgResolved,
                List.length_eq_zero, hc2, hn]⟩
    rcases key with ⟨m, hm⟩
    exact ⟨by rw [hm], ⟨m, by rw [hm]⟩⟩

/-- The live fleet with no attached endpoints of either kind. -/
def webBlueNoEp : AsgGroup := ⟨"web-blue", [], [], [blueInstance], "ELB", 300⟩

/-- Lookup in which the live fleet has an empty endpoint set. -/
def lookupNoEp : String → List AsgGroup := fun n =>
  if n == "web-blue" then [webBlueNoEp]
  else if n == "web-green" then [webGreen]
  else []

/-- ELB cutover environment over `lookupNoEp`. -/
def elbEnvNoEp : CutoverElbEnv :=
  ⟨lookupNoEp, fun _ _ => [], ⟨0, true⟩, fun _ _ => [], ⟨0, true⟩, fun _ _ => [], ⟨0, true⟩⟩

/-- Target-group cutover environment over `lookupNoEp`. -/
def tgEnvNoEp : CutoverTgEnv :=
  ⟨lookupNoEp, fun _ _ _ => [], ⟨0, true⟩, fun _ _ _ => [], ⟨0, true⟩,
   fun _ _ _ => [], ⟨0, true⟩⟩

/-- Witness for C5: with the live fleet unattached, both modules fail with an
empty trace. -/
theorem empty_endpoint_set_rejected_before_mutation_witness :
    ((webBlueNoEp.loadBalancerNames = [] ∨ webGreen.loadBalancerNames = []) ∧
     (cutoverElbMain cutoverParamsBG elbEnvNoEp).trace = [] ∧
     ∃ m, (cutoverElbMain cutoverParamsBG elbEnvNoEp).outcome = .failed m) ∧
    ((webBlueNoEp.targetGroupARNs = [] ∨ webGreen.targetGroupARNs = []) ∧
     (cutoverTgMain cutoverTgParamsBG tgEnvNoEp).trace = [] ∧
     ∃ m, (cutoverTgMain cutoverTgParamsBG tgEnvNoEp).outcome = .failed m) :=
  ⟨⟨by decide, empty_endpoint_set_rejected_before_mutation.1 cutoverParamsBG elbEnvNoEp
      webBlueNoEp webGreen (by decide) (by decide) (by decide)⟩,
   ⟨by decide, empty_endpoint_set_rejected_before_mutation.2 cutoverTgParamsBG tgEnvNoEp
      webBlueNoEp webGreen (by decide) (by decide) (by decide)⟩⟩

/-- C6: if any member of the candidate fleet is not both lifecycle
`InService` and self-reported `Healthy` in the baseline snapshot, both
cutover modules fail immediately with the precondition error and issue no
mutation call. -/
theorem unhealthy_candidate_rejected_before_mutation :
    (∀ (p : CutoverElbParams) (env : CutoverElbEnv) (cur new : AsgGroup),
      (p.current_group_name == p.new_group_name) = false →
      env.describeAutoScalingGroups p.current_group_name = [cur] →
      env.describeAutoScalingGroups p.new_group_name = [new] →
      (cur.loadBalancerNames.length == 0) = false →
      (new.loadBalancerNames.length == 0) = false →
      (∃ e ∈ instanceStatusOf new, ¬(e.2.1 = "InService" ∧ e.2.2 = "Healthy")) →
      cutoverElbMain p env =
        ⟨[], [.validate], .failed "Instances in new_group must be healthy and in service"⟩) ∧
    (∀ (p : CutoverTgParams) (env : CutoverTgEnv) (cur new : AsgGroup),
      (p.current_group_name == p.new_group_name) = false →
      env.describeAutoScalingGroups p.current_group_name = [cur] →
      env.describeAutoScalingGroups p.new_group_name = [new] →
      (cur.targetGroupARNs.length == 0) = false →
      (new.targetGroupARNs.length == 0) = false →
      (∃ e ∈ instanceStatusOf new, ¬(e.2.1 = "InService" ∧ e.2.2 = "Healthy")) →
      cutoverTgMain p env =
        ⟨[], [.validate], .failed "Instances in new_group must be healthy and in service"⟩) := by
  have hfalse : ∀ g : AsgGroup,
      (∃ e ∈ instanceStatusOf g, ¬(e.2.1 = "InService" ∧ e.2.2 = "Healthy")) →
      groupAllInServiceHealthy g = false := by
    intro g hbad
    rcases hbad with ⟨e, he, hne2⟩
    by_contra hab
    rw [Bool.not_eq_false] at hab
    unfold groupAllInServiceHealthy at hab
    have := List.all_eq_true.mp hab e he
    simp only [Bool.and_eq_true, beq_iff_eq] at this
    exact hne2 this
  constructor
  · intro p env cur new hne hcur hnew hlb1 hlb2 hbad
    simp [cutoverElbMain, hne, hcur, hnew, cutoverElbResolved, hlb1, hlb2, hfalse new hbad]
  · intro p env cur new hne hcur hnew htg1 htg2 hbad
    simp [cutoverTgMain, hne, hcur, hnew, cutoverTgResolved, htg1, htg2, hfalse new hbad]

/-- ELB cutover environment in which the candidate fleet has a `Pending`
member at baseline. -/
def elbEnvPending : CutoverElbEnv :=
  ⟨lookupBlueGreenPending, fun _ _ => [], ⟨0, true⟩, fun _ _ => [], ⟨0, true⟩,
   fun _ _ => [], ⟨0, true⟩⟩

/-- Target-group cutover environment with the `Pending` candidate member. -/
def tgEnvPending : CutoverTgEnv :=
  ⟨lookupBlueGreenPending, fun _ _ _ => [], ⟨0, true⟩, fun _ _ _ => [], ⟨0, true⟩,
   fun _ _ _ => [], ⟨0, true⟩⟩

/-- Witness for C6: a candidate fleet with a `Pending` member makes both
modules fail the precondition with an empty trace. -/
theorem unhealthy_candidate_rejected_before_mutation_witness :
    ((∃ e ∈ instanceStatusOf webGreenPending, ¬(e.2.1 = "InService" ∧ e.2.2 = "Healthy")) ∧
     cutoverElbMain cutoverParamsBG elbEnvPending =
       ⟨[], [.validate], .failed "Instances in new_group must be healthy and in service"⟩) ∧
    (cutoverTgMain cutoverTgParamsBG tgEnvPending =
       ⟨[], [.validate], .failed "Instances in new_group must be healthy and in service"⟩) :=
  ⟨⟨by decide, unhealthy_candidate_rejected_before_mutation.1 cutoverParamsBG elbEnvPending
      webBlue webGreenPending (by decide) (by decide) (by decide) (by decide) (by decide)
      (by decide)⟩,
   unhealthy_candidate_rejected_before_mutation.2 cutoverTgParamsBG tgEnvPending
      webBlue webGreenPending (by decide) (by decide) (by decide) (by decide) (by decide)
      (by decide)⟩

/-- Counterexample for C7 as stated: in a phase-3-timeout run of
`ec2_asg_cutover_elb` with rollback enabled and an ELB-health-checked
candidate group, the rollback detach/attach pair is not followed by a
health-check restore call, so the restore-after-every-pair discipline is
violated on this concrete run (both scenario groups use HealthCheckType
`ELB`). -/
theorem restore_after_every_pair_counterexample :
    everyPairRestored (fun g => g == "web-green" || g == "web-blue")
      (cutoverElbMain cutoverParamsBG elbEnvTimeout).trace = false := by decide

/-- C7 amended: in `ec2_asg_cutover_elb`, the phase-2 pair and the phase-4
pair are each followed by a health-check restore call exactly when the
respective group's HealthCheckType is `ELB`; the phase-3 rollback pair is
never followed by a restore call — the run ends right after re-attaching the
source endpoints. -/
theorem restore_follows_phase2_and_phase4_pairs_only
    (p : CutoverElbParams) (env : CutoverElbEnv) (cur new : AsgGroup)
    (hne : (p.current_group_name == p.new_group_name) = false)
    (hcur : env.describeAutoScalingGroups p.current_group_name = [cur])
    (hnew : env.describeAutoScalingGroups p.new_group_name = [new])
    (hlb1 : (cur.loadBalancerNames.length == 0) = false)
    (hlb2 : (new.loadBalancerNames.length == 0) = false)
    (hpre : groupAllInServiceHealthy new = true) :
    (gateExpired (cutoverElbGate3Pred env cur new) env.gate3 = true →
      p.rollback_on_failure = true →
      (cutoverElbMain p env).trace =
        (([.detachLoadBalancers new.autoScalingGroupName new.loadBalancerNames,
           .attachLoadBalancers new.autoScalingGroupName cur.loadBalancerNames] ++
          (if new.healthCheckType == "ELB" then
            [.updateAutoScalingGroup new.autoScalingGroupName new.healthCheckType
              new.healthCheckGracePeriod] else [])) ++
         [.detachLoadBalancers new.autoScalingGroupName cur.loadBalancerNames,
          .attachLoadBalancers new.autoScalingGroupName new.loadBalancerNames])) ∧
    (gateExpired (cutoverElbGate3Pred env cur new) env.gate3 = false →
      (cutoverElbMain p env).trace =
        (([.detachLoadBalancers new.autoScalingGroupName new.loadBalancerNames,
           .attachLoadBalancers new.autoScalingGroupName cur.loadBalancerNames] ++
          (if new.healthCheckType == "ELB" then
            [.updateAutoScalingGroup new.autoScalingGroupName new.healthCheckType
              new.healthCheckGracePeriod] else [])) ++
         [.detachLoadBalancers cur.autoScalingGroupName cur.loadBalancerNames,
          .attachLoadBalancers cur.autoScalingGroupName
            (pyListOr p.standby_load_balancers new.loadBalancerNames)]) ++
        (if cur.healthCheckType == "ELB" then
          [.updateAutoScalingGroup cur.autoScalingGroupName cur.healthCheckType
            cur.healthCheckGracePeriod] else [])) := by
  constructor
  · intro hexp hrb
    rw [cutoverElb_run_rollback p env cur new hne hcur hnew hlb1 hlb2 hpre hexp hrb]
  · intro hexp
    exact cutoverElb_trace_success p env cur new hne hcur hnew hlb1 hlb2 hpre hexp

/-- Witness for the amended C7: the timeout run and the success run on the
concrete fixtures produce exactly the predicted traces — one restore after
the phase-2 pair, one after the phase-4 pair, none after the rollback pair. -/
theorem restore_follows_phase2_and_phase4_pairs_only_witness :
    (cutoverElbMain cutoverParamsBG elbEnvTimeout).trace =
      [.detachLoadBalancers "web-green" ["lb-green"],
       .attachLoadBalancers "web-green" ["lb-blue"],
       .updateAutoScalingGroup "web-green" "ELB" 300,
       .detachLoadBalancers "web-green" ["lb-blue"],
       .attachLoadBalancers "web-green" ["lb-green"]] ∧
    (cutoverElbMain cutoverParamsBG elbEnvSuccess).trace =
      [.detachLoadBalancers "web-green" ["lb-green"],
       .attachLoadBalancers "web-green" ["lb-blue"],
       .updateAutoScalingGroup "web-green" "ELB" 300,
       .detachLoadBalancers "web-blue" ["lb-blue"],
       .attachLoadBalancers "web-blue" ["lb-green"],
       .updateAutoScalingGroup "web-blue" "ELB" 300] := by
  constructor
  · have h := (restore_follows_phase2_and_phase4_pairs_only cutoverParamsBG elbEnvTimeout
      webBlue webGreen (by decide) (by decide) (by decide) (by decide) (by decide)
      (by decide)).1 (by decide) (by decide)
    exact h.trans (by decide)
  · have h := (restore_follows_phase2_and_phase4_pairs_only cutoverParamsBG elbEnvSuccess
      webBlue webGreen (by decide) (by decide) (by decide) (by decide) (by decide)
      (by decide)).2 (by decide)
    exact h.trans (by decide)

/-- The complete run record of `ec2_asg_cutover_elb` when validation passes,
the phase-3 gate expires and rollback is disabled. -/
theorem cutoverElb_run_norollback (p : CutoverElbParams) (env : CutoverElbEnv)
    (cur new : AsgGroup)
    (hne : (p.current_group_name == p.new_group_name) = false)
    (hcur : env.describeAutoScalingGroups p.current_group_name = [cur])
    (hnew : env.describeAutoScalingGroups p.new_group_name = [new])
    (hlb1 : (cur.loadBalancerNames.length == 0) = false)
    (hlb2 : (new.loadBalancerNames.length == 0) = false)
    (hpre : groupAllInServiceHealthy new = true)
    (hexp : gateExpired (cutoverElbGate3Pred env cur new) env.gate3 = true)
    (hrb : p.rollback_on_failure = false) :
    cutoverElbMain p env =
      ⟨[.detachLoadBalancers new.autoScalingGroupName new.loadBalancerNames,
        .attachLoadBalancers new.autoScalingGroupName cur.loadBalancerNames] ++
       (if new.healthCheckType == "ELB" then
         [.updateAutoScalingGroup new.autoScalingGroupName new.healthCheckType
           new.healthCheckGracePeriod] else []),
       [.validate, .prepareNew, .gateNewHealth],
       .failed "Waited too long for target ELB to report instances as healthy"⟩ := by
  simp only [cutoverElbMain, hne, hcur, hnew, Bool.false_eq_true, if_false,
    cutoverElbResolved, hlb1, hlb2, hpre, Bool.not_true,
    cutoverElbAfterValidation, hexp, hrb, if_true]

/-- Counterexample for C8 as stated: in a successful `ec2_asg_elbs` run that
keeps `lb-a` and adds `lb-b` to a group already attached to `lb-a`, the
attach call passes the full requested list and therefore passes `lb-a`,
which is already attached — the attach-only-deltas discipline fails on this
concrete run. -/
theorem attach_detach_deltas_counterexample :
    attachesAreDeltas "asg-a" ["lb-a"]
      (asgElbsMain asgElbsParamsAB asgElbsEnvSuccess).trace = false := by decide

/-- The endpoint list passed by a mutation call is one of the three given
full lists; health-check restore calls pass no endpoint list. -/
def eventPassesOneOf (a b c : List String) : Event → Prop
  | .detachLoadBalancers _ names => names = a ∨ names = b ∨ names = c
  | .attachLoadBalancers _ names => names = a ∨ names = b ∨ names = c
  | .detachTargetGroups _ arns => arns = a ∨ arns = b ∨ arns = c
  | .attachTargetGroups _ arns => arns = a ∨ arns = b ∨ arns = c
  | .updateAutoScalingGroup _ _ _ => True

/-- After validation, every mutation call of `ec2_asg_cutover_elb` — in
every branch: phase 2, the phase-3 rollback pair, and phase 4 — passes one
of the full source, destination or standby load-balancer lists. -/
theorem cutoverElbAfterValidation_full_lists (p : CutoverElbParams) (env : CutoverElbEnv)
    (cur new : AsgGroup) :
    ∀ e ∈ (cutoverElbAfterValidation p env cur new).trace,
      eventPassesOneOf new.loadBalancerNames cur.loadBalancerNames
        (pyListOr p.standby_load_balancers new.loadBalancerNames) e := by
  simp only [cutoverElbAfterValidation]
  by_cases hexp : gateExpired (cutoverElbGate3Pred env cur new) env.gate3 = true
  · simp only [hexp, if_true]
    by_cases hrb : p.rollback_on_failure = true
    · simp only [hrb, if_true]
      by_cases hhn : (new.healthCheckType == "ELB") = true <;>
        simp [hhn, eventPassesOneOf]
    · simp only [Bool.not_eq_true] at hrb
      simp only [hrb, Bool.false_eq_true, if_false]
      by_cases hhn : (new.healthCheckType == "ELB") = true <;>
        simp [hhn, eventPassesOneOf]
  · simp only [Bool.not_eq_true] at hexp
    simp only [hexp, Bool.false_eq_true, if_false]
    by_cases h5 : gateExpired (cutoverElbGate5Pred env cur) env.gate5 = true <;>
      by_cases hv : p.verify_standby_instances = true <;>
      by_cases h6 : gateExpired (cutoverElbGate6Pred env cur
        (pyListOr p.standby_load_balancers new.loadBalancerNames)) env.gate6 = true <;>
      by_cases hhn : (new.healthCheckType == "ELB") = true <;>
      by_cases hhc : (cur.healthCheckType == "ELB") = true <;>
      simp_all [eventPassesOneOf]

/-- After validation, every mutation call of `ec2_asg_cutover_target_groups`
— phase 2, either rollback arm, and phase 4 — passes one of the full source,
destination or standby target-group lists. -/
theorem cutoverTgAfterValidation_full_lists (p : CutoverTgParams) (env : CutoverTgEnv)
    (cur new : AsgGroup) :
    ∀ e ∈ (cutoverTgAfterValidation p env cur new).trace,
      eventPassesOneOf new.targetGroupARNs cur.targetGroupARNs
        (pyListOr p.standby_target_group_arns new.targetGroupARNs) e := by
  simp only [cutoverTgAfterValidation]
  by_cases hexp : gateExpired (cutoverTgGate3Pred env cur new) env.gate3 = true
  · simp only [hexp, if_true]
    by_cases hrb : p.rollback_on_failure = true
    · simp only [hrb, if_true]
      by_cases hhn : (new.healthCheckType == "ELB") = true <;>
        simp [hhn, eventPassesOneOf]
    · simp only [Bool.not_eq_true] at hrb
      simp only [hrb, Bool.false_eq_true, if_false]
      by_cases hhn : (new.healthCheckType == "ELB") = true <;>
        simp [hhn, eventPassesOneOf]
  · simp only [Bool.not_eq_true] at hexp
    simp only [hexp, Bool.false_eq_true, if_false]
    by_cases h5 : gateExpired (cutoverTgGate5Pred env cur) env.gate5 = true
    · simp only [h5, if_true]
      by_cases hrb : p.rollback_on_failure = true
      · simp only [hrb, if_true]
        by_cases hhn : (new.healthCheckType == "ELB") = true <;>
          by_cases hhc : (cur.healthCheckType == "ELB") = true <;>
            simp [hhn, hhc, eventPassesOneOf]
      · simp only [Bool.not_eq_true] at hrb
        simp only [hrb, Bool.false_eq_true, if_false]
        by_cases hhn : (new.healthCheckType == "ELB") = true <;>
          by_cases hhc : (cur.healthCheckType == "ELB") = true <;>
            simp [hhn, hhc, eventPassesOneOf]
    · simp only [Bool.not_eq_true] at h5
      simp only [h5, Bool.false_eq_true, if_false]
      by_cases hv : p.verify_standby_instances = true <;>
        by_cases h6 : gateExpired (cutoverTgGate6Pred env cur
          (pyListOr p.standby_target_group_arns new.targetGroupARNs)) env.gate6 = true <;>
        by_cases hhn : (new.healthCheckType == "ELB") = true <;>
        by_cases hhc : (cur.healthCheckType == "ELB") = true <;>
        simp [hv, h6, hhn, hhc, eventPassesOneOf]

/-- `ec2_asg_target_groups` environment where `tg-b` resolves to `arn-b` and
the gate succeeds at the first poll. -/
def asgTgsEnvSuccess : AsgTgsEnv :=
  ⟨lookupAsgA, fun _ => ["arn-b"], fun _ _ _ => [⟨"healthy", none⟩], ⟨1, false⟩⟩

/-- C8 amended: in the single-group modules `ec2_asg_elbs` and
`ec2_asg_target_groups`, the attach call passes the full requested endpoint
list, including endpoints already attached, while the final detach call
passes the unique delta (the endpoints attached at start that were not
requested); in the cutover modules, every attach and detach call passes one
of the full endpoint lists (source, destination or standby), never a
computed delta. -/
theorem single_module_detach_deltas_attach_full :
    (∀ (pe : AsgElbsParams) (enve : AsgElbsEnv) (g : AsgGroup),
      enve.describeAutoScalingGroups pe.name = [g] →
      groupAllInServiceHealthy g = true →
      gateExpiredEx (asgElbsGatePred pe enve g) enve.gate = .ok false →
      asgElbsMain pe enve =
        ⟨[.attachLoadBalancers g.autoScalingGroupName pe.load_balancers,
          .detachLoadBalancers g.autoScalingGroupName
            (g.loadBalancerNames.filter fun l => !pe.load_balancers.contains l)],
         [.validate, .prepareNew, .gateNewHealth, .cutoverOld, .done],
         .ok [⟨g.autoScalingGroupName, pe.load_balancers, g.instances.map (·.instanceId),
               instanceStatusOf g⟩]⟩) ∧
    (∀ (pt : AsgTgsParams) (envt : AsgTgsEnv) (g : AsgGroup),
      envt.describeAutoScalingGroups pt.name = [g] →
      ¬ (envt.describeTargetGroups pt.target_groups).length < 1 →
      groupAllInServiceHealthy g = true →
      gateExpiredEx (asgTgsGatePred envt g (envt.describeTargetGroups pt.target_groups))
        envt.gate = .ok false →
      asgTgsMain pt envt =
        ⟨[.attachTargetGroups g.autoScalingGroupName (envt.describeTargetGroups pt.target_groups),
          .detachTargetGroups g.autoScalingGroupName
            (g.targetGroupARNs.filter fun t =>
              !(envt.describeTargetGroups pt.target_groups).contains t)],
         [.validate, .prepareNew, .gateNewHealth, .cutoverOld, .done],
         .ok [⟨g.autoScalingGroupName, envt.describeTargetGroups pt.target_groups,
               g.instances.map (·.instanceId), instanceStatusOf g⟩]⟩) ∧
    (∀ (pc : CutoverElbParams) (envc : CutoverElbEnv) (cur new : AsgGroup),
      envc.describeAutoScalingGroups pc.current_group_name = [cur] →
      envc.describeAutoScalingGroups pc.new_group_name = [new] →
      ∀ e ∈ (cutoverElbMain pc envc).trace,
        eventPassesOneOf new.loadBalancerNames cur.loadBalancerNames
          (pyListOr pc.standby_load_balancers new.loadBalancerNames) e) ∧
    (∀ (pt : CutoverTgParams) (envt : CutoverTgEnv) (cur new : AsgGroup),
      envt.describeAutoScalingGroups pt.current_group_name = [cur] →
      envt.describeAutoScalingGroups pt.new_group_name = [new] →
      ∀ e ∈ (cutoverTgMain pt envt).trace,
        eventPassesOneOf new.targetGroupARNs cur.targetGroupARNs
          (pyListOr pt.standby_target_group_arns new.targetGroupARNs) e) := by
  refine ⟨?_, ?_, ?_, ?_⟩
  · intro pe enve g hg hpg hgate
    simp only [asgElbsMain, hg, hpg, Bool.not_true, Bool.false_eq_true, if_false, hgate,
      List.cons_append, List.nil_append]
  · intro pt envt g hg htg hpg hgate
    simp only [asgTgsMain, hg, htg, hpg, Bool.not_true, Bool.false_eq_true, if_false, hgate,
      List.cons_append, List.nil_append]
  · intro pc envc cur new hcur hnew
    by_cases hne : (pc.current_group_name == pc.new_group_name) = true
    · simp [cutoverElbMain, hne]
    · simp only [Bool.not_eq_true] at hne
      simp only [cutoverElbMain, hne, Bool.false_eq_true, if_false, hcur, hnew,
        cutoverElbResolved]
      by_cases h1 : (cur.loadBalancerNames.length == 0) = true
      · simp [h1]
      · simp only [Bool.not_eq_true] at h1
        simp only [h1, Bool.false_eq_true, if_false]
        by_cases h2 : (new.loadBalancerNames.length == 0) = true
        · simp [h2]
        · simp only [Bool.not_eq_true] at h2
          simp only [h2, Bool.false_eq_true, if_false]
          by_cases h3 : groupAllInServiceHealthy new = true
          · simp only [h3, Bool.not_true, Bool.false_eq_true, if_false]
            exact cutoverElbAfterValidation_full_lists pc envc cur new
          · simp only [Bool.not_eq_true] at h3
            simp [h3]
  · intro pt envt cur new hcur hnew
    by_cases hne : (pt.current_group_name == pt.new_group_name) = true
    · simp [cutoverTgMain, hne]
    · simp only [Bool.not_eq_true] at hne
      simp only [cutoverTgMain, hne, Bool.false_eq_true, if_false, hcur, hnew,
        cutoverTgResolved]
      by_cases h1 : (cur.targetGroupARNs.length == 0) = true
      · simp [h1]
      · simp only [Bool.not_eq_true] at h1
        simp only [h1, Bool.false_eq_true, if_false]
        by_cases h2 : (new.targetGroupARNs.length == 0) = true
        · simp [h2]
        · simp only [Bool.not_eq_true] at h2
          simp only [h2, Bool.false_eq_true, if_false]
          by_cases h3 : groupAllInServiceHealthy new = true
          · simp only [h3, Bool.not_true, Bool.false_eq_true, if_false]
            exact cutoverTgAfterValidation_full_lists pt envt cur new
          · simp only [Bool.not_eq_true] at h3
            simp [h3]

/-- Witness for the amended C8: on the concrete fixtures, `ec2_asg_elbs`
attaches the full requested list (including the already-attached `lb-a`) and
detaches the empty delta, `ec2_asg_target_groups` attaches the full resolved
list and detaches the unique delta `arn-a`, and the phase-4 standby attach
calls of both cutover success runs pass a full endpoint list. -/
theorem single_module_detach_deltas_attach_full_witness :
    (asgElbsMain asgElbsParamsAB asgElbsEnvSuccess =
      ⟨[.attachLoadBalancers "asg-a" ["lb-a", "lb-b"],
        .detachLoadBalancers "asg-a" []],
       [.validate, .prepareNew, .gateNewHealth, .cutoverOld, .done],
       .ok [⟨"asg-a", ["lb-a", "lb-b"], ["i-a"], [("i-a", "InService", "Healthy")]⟩]⟩) ∧
    (asgTgsMain asgTgsParamsB asgTgsEnvSuccess =
      ⟨[.attachTargetGroups "asg-a" ["arn-b"],
        .detachTargetGroups "asg-a" ["arn-a"]],
       [.validate, .prepareNew, .gateNewHealth, .cutoverOld, .done],
       .ok [⟨"asg-a", ["arn-b"], ["i-a"], [("i-a", "InService", "Healthy")]⟩]⟩) ∧
    (Event.attachLoadBalancers "web-blue" ["lb-green"] ∈
        (cutoverElbMain cutoverParamsBG elbEnvSuccess).trace ∧
      eventPassesOneOf ["lb-green"] ["lb-blue"] ["lb-green"]
        (.attachLoadBalancers "web-blue" ["lb-green"])) ∧
    (Event.attachTargetGroups "web-blue" ["tg-green"] ∈
        (cutoverTgMain cutoverTgParamsBG tgEnvSuccess).trace ∧
      eventPassesOneOf ["tg-green"] ["tg-blue"] ["tg-green"]
        (.attachTargetGroups "web-blue" ["tg-green"])) := by
  refine ⟨?_, ?_, ⟨by decide, ?_⟩, ⟨by decide, ?_⟩⟩
  · exact (single_module_detach_deltas_attach_full.1 asgElbsParamsAB asgElbsEnvSuccess asgA
      (by decide) (by decide) (by rfl)).trans (by decide)
  · exact (single_module_detach_deltas_attach_full.2.1 asgTgsParamsB asgTgsEnvSuccess asgA
      (by decide) (by decide) (by decide) (by rfl)).trans (by decide)
  · exact single_module_detach_deltas_attach_full.2.2.1 cutoverParamsBG elbEnvSuccess
      webBlue webGreen (by decide) (by decide)
      (.attachLoadBalancers "web-blue" ["lb-green"]) (by decide)
  · exact single_module_detach_deltas_attach_full.2.2.2 cutoverTgParamsBG tgEnvSuccess
      webBlue webGreen (by decide) (by decide)
      (.attachTargetGroups "web-blue" ["tg-green"]) (by decide)

/-- C9: supplying an explicitly empty list for the standby-endpoints
parameter is indistinguishable from omitting it — Python `or` treats the
empty list as falsy, so the candidate fleet's original endpoints are
substituted either way and an empty standby set can never be requested. -/
theorem empty_standby_list_falls_back_to_source :
    (∀ (p : CutoverElbParams) (env : CutoverElbEnv),
      cutoverElbMain { p with standby_load_balancers := some [] } env =
        cutoverElbMain { p with standby_load_balancers := none } env) ∧
    (∀ (p : CutoverTgParams) (env : CutoverTgEnv),
      cutoverTgMain { p with standby_target_group_arns := some [] } env =
        cutoverTgMain { p with standby_target_group_arns := none } env) ∧
    (∀ y : List String, pyListOr (some []) y = y ∧ pyListOr none y = y) := by
  refine ⟨?_, ?_, ?_⟩
  · intro p env
    rfl
  · intro p env
    rfl
  · intro y
    exact ⟨rfl, rfl⟩

/-- The rollback guard of `ec2_asg_elbs` always evaluates to false:
`rollback_on_failure` is not a declared parameter. -/
theorem asgElbs_rollback_guard (p : AsgElbsParams) :
    pyTruthy (asgElbsParamsGet p "rollback_on_failure") = false := rfl

/-- The rollback guard of `ec2_asg_target_groups` always evaluates to
false. -/
theorem asgTgs_rollback_guard (p : AsgTgsParams) :
    pyTruthy (asgTgsParamsGet p "rollback_on_failure") = false := rfl

/-- C10: in `ec2_asg_elbs` and `ec2_asg_target_groups` a health-gate timeout
always fails without any rollback mutation: `rollback_on_failure` is not a
declared parameter of either module, so `module.params.get` yields `None`,
the rollback guard is never satisfied, and the rollback arm — which in
`ec2_asg_target_groups` references the undefined `unique_new_load_balancers`
— is unreachable: the timeout run issues only the initial attach call and
fails (it does not crash). -/
theorem single_modules_timeout_never_rolls_back :
    (∀ (p : AsgElbsParams), pyTruthy (asgElbsParamsGet p "rollback_on_failure") = false) ∧
    (∀ (p : AsgTgsParams), pyTruthy (asgTgsParamsGet p "rollback_on_failure") = false) ∧
    (∀ (p : AsgElbsParams) (env : AsgElbsEnv) (g : AsgGroup),
      env.describeAutoScalingGroups p.name = [g] →
      groupAllInServiceHealthy g = true →
      gateExpiredEx (asgElbsGatePred p env g) env.gate = .ok true →
      asgElbsMain p env =
        ⟨[.attachLoadBalancers g.autoScalingGroupName p.load_balancers],
         [.validate, .prepareNew, .gateNewHealth],
         .failed "Waited too long for target ELB to report instances as healthy"⟩) ∧
    (∀ (p : AsgTgsParams) (env : AsgTgsEnv) (g : AsgGroup),
      env.describeAutoScalingGroups p.name = [g] →
      ¬ (env.describeTargetGroups p.target_groups).length < 1 →
      groupAllInServiceHealthy g = true →
      gateExpiredEx (asgTgsGatePred env g (env.describeTargetGroups p.target_groups))
        env.gate = .ok true →
      asgTgsMain p env =
        ⟨[.attachTargetGroups g.autoScalingGroupName (env.describeTargetGroups p.target_groups)],
         [.validate, .prepareNew, .gateNewHealth],
         .failed "Waited too long for target ELB to report instances as healthy. No rollback action was taken."⟩) := by
  refine ⟨fun p => rfl, fun p => rfl, ?_, ?_⟩
  · intro p env g hg hpg hgate
    simp only [asgElbsMain, hg, hpg, Bool.not_true, Bool.false_eq_true, if_false, hgate,
      asgElbs_rollback_guard, List.cons_append, List.nil_append]
  · intro p env g hg htg hpg hgate
    simp only [asgTgsMain, hg, htg, hpg, Bool.not_true, Bool.false_eq_true, if_false, hgate,
      asgTgs_rollback_guard, List.cons_append, List.nil_append]

/-- Witness for C10: timeout runs of both single-group modules on the
concrete fixtures fail with only the attach call issued and no crash. -/
theorem single_modules_timeout_never_rolls_back_witness :
    (gateExpiredEx (asgElbsGatePred asgElbsParamsAB asgElbsEnvTimeout asgA)
       asgElbsEnvTimeout.gate = .ok true ∧
     asgElbsMain asgElbsParamsAB asgElbsEnvTimeout =
       ⟨[.attachLoadBalancers "asg-a" ["lb-a", "lb-b"]],
        [.validate, .prepareNew, .gateNewHealth],
        .failed "Waited too long for target ELB to report instances as healthy"⟩) ∧
    (gateExpiredEx (asgTgsGatePred asgTgsEnvTimeout asgA
        (asgTgsEnvTimeout.describeTargetGroups asgTgsParamsB.target_groups))
       asgTgsEnvTimeout.gate = .ok true ∧
     asgTgsMain asgTgsParamsB asgTgsEnvTimeout =
       ⟨[.attachTargetGroups "asg-a" ["arn-b"]],
        [.validate, .prepareNew, .gateNewHealth],
        .failed "Waited too long for target ELB to report instances as healthy. No rollback action was taken."⟩) := by
  constructor
  · have h := single_modules_timeout_never_rolls_back.2.2.1 asgElbsParamsAB asgElbsEnvTimeout
      asgA (by decide) (by decide) (by rfl)
    exact ⟨by rfl, h.trans (by decide)⟩
  · have h := single_modules_timeout_never_rolls_back.2.2.2 asgTgsParamsB asgTgsEnvTimeout
      asgA (by decide) (by decide) (by decide) (by rfl)
    exact ⟨by rfl, h.trans (by decide)⟩
